import Mathlib

/-!
# MIMC session engine

A shallow embedding of the session engine of `MCUser.go` and of the resource
persistence of `util/string/stringutil.go`.

* Go pointers that may be nil are `Option`s; dereferencing `none` is a runtime
  failure (`Run.panic`).
* The three delegates are opaque; every call the session makes on one of them is
  appended to the ghost field `MCUser.calls`.
* Collaborators that live outside the two source files (the protobuf codec, the
  packet builders, `json.Unmarshal`, the key derivation) are the fields of `Env`.
* Clock readings (`CurrentTimeMillis()`) are explicit: an argument named `now`,
  for the timer pass one reading per record (`clock`), and for the send loop
  one field of `SendInput` per reading. Differences of clock values are int64
  differences (`sub64`).
-/

namespace MIMC

/-- A Go `[]byte`; the nil slice and the empty slice are both `[]`. -/
abbrev Bytes := List Nat

/-- Session status, `UserStatus` in MCUser.go: `Online` is the zero value. -/
inductive UserStatus where
  | Online
  | Offline
  deriving DecidableEq, Repr

/-- Connection status of `MIMCConnection`. -/
inductive ConnStatus where
  | NOT_CONNECTED
  | SOCK_CONNECTED
  | HANDSHAKE_CONNECTED
  deriving DecidableEq, Repr

/-- Outer command of a V6 frame header. -/
inductive Cmd where
  | CMD_CONN
  | CMD_BIND
  | CMD_SECMSG
  | CMD_KICK
  | CMD_PING
  | CMD_UNBIND
  deriving DecidableEq, Repr

/-- Type tag of an inner packet, `MIMC_MSG_TYPE`. -/
inductive MIMC_MSG_TYPE where
  | P2P_MESSAGE
  | P2T_MESSAGE
  | PACKET_ACK
  | COMPOUND
  | OTHER (code : Nat)
  deriving DecidableEq, Repr

/-- Direction tag of an outbound frame. -/
inductive Direction where
  | MIMC_C2S_SINGLE_DIRECTION
  | MIMC_C2S_DOUBLE_DIRECTION
  deriving DecidableEq, Repr

/-- Header of a V6 frame (`ClientHeader`); only the fields the session reads. -/
structure ClientHeader where
  Cmd : Option Cmd
  Id : Option String
  deriving DecidableEq, Repr

/-- The outer frame, `packet.MIMCV6Packet`; a ping frame has no header. -/
structure MIMCV6Packet where
  header : Option ClientHeader
  payload : Bytes
  deriving DecidableEq, Repr

/-- The inner packet `MIMCPacket` (protobuf, optional fields are pointers). -/
structure MIMCPacket where
  PacketId : Option String
  Type_ : Option MIMC_MSG_TYPE
  Sequence : Option Int
  Timestamp : Option Int
  Payload : Bytes
  deriving DecidableEq, Repr

/-- Protobuf `MIMCUser`: the sender of a message. -/
structure MIMCUserPB where
  AppAccount : Option String
  Resource : Option String
  deriving DecidableEq, Repr

/-- Protobuf `MIMCGroup`: the topic of a group message. -/
structure MIMCGroup where
  TopicId : Option Int
  deriving DecidableEq, Repr

/-- Protobuf `MIMCP2PMessage`. -/
structure MIMCP2PMessage where
  From : Option MIMCUserPB
  Payload : Bytes
  deriving DecidableEq, Repr

/-- Protobuf `MIMCP2TMessage`. -/
structure MIMCP2TMessage where
  From : Option MIMCUserPB
  To : Option MIMCGroup
  Payload : Bytes
  deriving DecidableEq, Repr

/-- Protobuf `MIMCPacketAck`. -/
structure MIMCPacketAck where
  PacketId : Option String
  Sequence : Option Int
  Timestamp : Option Int
  deriving DecidableEq, Repr

/-- Protobuf `MIMCPacketList`. A nil entry of `Packets` is `none`. -/
structure MIMCPacketList where
  Resource : Option String
  Packets : List (Option MIMCPacket)
  deriving DecidableEq, Repr

/-- Protobuf `XMMsgConnResp`. -/
structure XMMsgConnResp where
  Challenge : Option String
  deriving DecidableEq, Repr

/-- Protobuf `XMMsgBindResp`. -/
structure XMMsgBindResp where
  Result : Option Bool
  ErrorType : Option String
  ErrorReason : Option String
  ErrorDesc : Option String
  deriving DecidableEq, Repr

/-- The value `msg.NewP2pMsg` is given: the arguments of the constructor. -/
structure P2PMessage where
  packetId : Option String
  fromAccount : Option String
  fromResource : Option String
  sequence : Option Int
  timestamp : Option Int
  payload : Bytes
  deriving DecidableEq, Repr

/-- The value `msg.NewP2tMsg` is given: the arguments of the constructor. -/
structure P2TMessage where
  packetId : Option String
  fromAccount : Option String
  fromResource : Option String
  sequence : Option Int
  timestamp : Option Int
  topicId : Option Int
  payload : Bytes
  deriving DecidableEq, Repr

/-- An outbound frame, `msg.MsgPacket`. -/
structure MsgPacket where
  msgType : Direction
  packet : MIMCV6Packet
  deriving DecidableEq, Repr

/-- An unacked record, `packet.MIMCTimeoutPacket`. -/
structure MIMCTimeoutPacket where
  timestamp : Int
  packet : MIMCPacket
  deriving DecidableEq, Repr

/-- One call made by the session on a delegate. -/
inductive Call where
  | FetchToken
  | HandleChange (online : Bool) (errType errReason errDesc : Option String)
  | HandleServerAck (packetId : Option String) (sequence timestamp : Option Int)
  | HandleMessage (batch : List P2PMessage)
  | HandleGroupMessage (batch : List P2TMessage)
  | HandleSendMessageTimeout (m : P2PMessage)
  | HandleSendGroupMessageTimeout (m : P2TMessage)
  deriving DecidableEq, Repr

/-- A delegate field of the session: the nil interface or a registered object. -/
inductive Delegate where
  | nil
  | registered
  deriving DecidableEq, Repr

/-- Modelled from the spec: the outbound queue `que.ConQueue`, an unbounded FIFO;
`Push` appends at the tail and `Pop` takes from the head. -/
abbrev ConQueue := List MsgPacket

/-- Modelled from the spec: `ConQueue.Push`. -/
def ConQueue.Push (q : ConQueue) (m : MsgPacket) : ConQueue := q ++ [m]

/-- Modelled from the spec: `ConQueue.Pop`, non-blocking, nil when empty. -/
def ConQueue.Pop (q : ConQueue) : Option MsgPacket × ConQueue :=
  match q with
  | [] => (none, [])
  | m :: rest => (some m, rest)

/-- Modelled from the spec: the unacked table `cmap.ConMap`, a mapping from
packet-id to record, kept as an association list whose order is the (arbitrary)
iteration order of `KVs()`. -/
abbrev ConMap := List (String × MIMCTimeoutPacket)

/-- The record stored under a key, if any. -/
def ConMap.Get (m : ConMap) (k : String) : Option MIMCTimeoutPacket :=
  List.lookup k m

/-- Modelled from the spec: `ConMap.Push(key, record)` stores the record under
the key, replacing an earlier one. -/
def ConMap.Push (m : ConMap) (k : String) (v : MIMCTimeoutPacket) : ConMap :=
  (k, v) :: m.filter (fun e => e.1 != k)

/-- Modelled from the spec: `ConMap.Pop(key)` returns the record or nil and
removes the key; popping an absent key returns nil. -/
def ConMap.Pop (m : ConMap) (k : String) : Option MIMCTimeoutPacket × ConMap :=
  (ConMap.Get m k, m.filter (fun e => e.1 != k))

/-- Modelled from the spec: `ConMap.KVs()`, the snapshot that is iterated. -/
def ConMap.KVs (m : ConMap) : List (String × MIMCTimeoutPacket) := m

/-- Modelled from the spec: the connection `MIMCConnection`, its status, the
handshake challenge, the derived body key and the watchdog deadline. -/
structure MIMCConnection where
  status : ConnStatus
  challenge : String
  rc4Key : String
  nextResetSockTs : Int
  deriving DecidableEq, Repr

/-- The session, `MCUser` in MCUser.go. `chid` is a float64 in the source and
is carried as the integral number the token bundle holds. `messageToSend` and
`messageToAck` are pointers: nil (`none`) until `InitAndSetup` creates the queue
and the table. `calls` is a ghost field: the calls made on the delegates so
far, oldest first. -/
structure MCUser where
  chid : Int
  uuid : Int
  resource : String
  status : UserStatus
  isLogout : Bool
  clientAttrs : String
  cloudAttrs : String
  appId : Int
  appAccount : String
  appPackage : String
  securityKey : String
  token : Option String
  tryLogin : Bool
  conn : Option MIMCConnection
  lastLoginTimestamp : Int
  lastCreateConnTimestamp : Int
  lastPingTimestamp : Int
  tokenDelegate : Delegate
  statusDelegate : Delegate
  msgDelegate : Delegate
  messageToSend : Option ConQueue
  messageToAck : Option ConMap
  calls : List Call
  deriving DecidableEq, Repr

/-- Outcome of running a method of the session: a normal return with the new
session state, or a runtime failure (a Go panic). -/
inductive Run (α : Type) where
  | ret (val : α) (s : MCUser)
  | panic
  deriving Repr

/-- A decoded JSON value, as `json.Unmarshal` stores it in an `interface{}`;
numbers are carried as the integral value they denote. -/
inductive JSON where
  | null
  | bool (b : Bool)
  | num (n : Int)
  | str (s : String)
  | arr (items : List JSON)
  | obj (fields : List (String × JSON))

/-- The collaborators of the session that live outside MCUser.go. -/
structure Env where
  /-- `Deserialize(bytes, *MIMCPacket)`; `none` when it reports failure. -/
  decodePacket : Bytes → Option MIMCPacket
  /-- `Deserialize(bytes, *MIMCPacketAck)`. -/
  decodeAck : Bytes → Option MIMCPacketAck
  /-- `Deserialize(bytes, *MIMCPacketList)`. -/
  decodeList : Bytes → Option MIMCPacketList
  /-- `Deserialize(bytes, *MIMCP2PMessage)`. -/
  decodeP2P : Bytes → Option MIMCP2PMessage
  /-- `Deserialize(bytes, *MIMCP2TMessage)`. -/
  decodeP2T : Bytes → Option MIMCP2TMessage
  /-- `Deserialize(bytes, *XMMsgConnResp)`. -/
  decodeConnResp : Bytes → Option XMMsgConnResp
  /-- `Deserialize(bytes, *XMMsgBindResp)`. -/
  decodeBindResp : Bytes → Option XMMsgBindResp
  /-- `BuildP2PMessagePacket(user, toAppAccount, msgByte, true)`. -/
  BuildP2PMessagePacket : MCUser → String → Bytes → MIMCV6Packet × MIMCPacket
  /-- `BuildP2TMessagePacket(user, topicId, msgByte, true)`. -/
  BuildP2TMessagePacket : MCUser → Int → Bytes → MIMCV6Packet × MIMCPacket
  /-- `BuildSequenceAckPacket(user, packetList)`. -/
  BuildSequenceAckPacket : MCUser → MIMCPacketList → MIMCV6Packet
  /-- `json.Unmarshal` into a `map[string]interface{}`; `none` on error. -/
  unmarshal : String → Option (List (String × JSON))
  /-- Derivation of the body key from the challenge and the security key. -/
  deriveRc4Key : String → String → String
  /-- The constant `cnst.MIMC_TOKEN_EXPIRE`. -/
  MIMC_TOKEN_EXPIRE : String
  /-- The constant `cnst.CHECK_TIMEOUT_TIMEVAL_MS`. -/
  CHECK_TIMEOUT_TIMEVAL_MS : Int

/-- An int64 result: the value wrapped into the range from -2^63 to 2^63 - 1. -/
def wrap64 (x : Int) : Int :=
  (x + 9223372036854775808) % 18446744073709551616 - 9223372036854775808

/-- Subtraction of two int64 values, as Go computes it. -/
def sub64 (a b : Int) : Int := wrap64 (a - b)

/-- A millisecond clock value or timestamp: a non-negative int64. -/
def isClockValue (t : Int) : Prop := 0 ≤ t ∧ t < 9223372036854775808

/-- `MCUser.SendMessage` (MCUser.go 177-189). `&toAppAccount == nil` is never
true, so only the payload is tested. A push on a nil queue or a nil table is a
runtime failure: a nil pointer cannot hold the frame or the record. -/
def SendMessage (env : Env) (now : Int) (s : MCUser) (toAppAccount : String)
    (msgByte : Bytes) : Run String :=
  if msgByte.length = 0 then .ret "" s
  else
    let built := env.BuildP2PMessagePacket s toAppAccount msgByte
    let timeoutPacket : MIMCTimeoutPacket := { timestamp := now, packet := built.2 }
    let msgPacket : MsgPacket :=
      { msgType := .MIMC_C2S_DOUBLE_DIRECTION, packet := built.1 }
    match s.messageToSend with
    | none => .panic
    | some queue =>
      let s1 := { s with messageToSend := some (ConQueue.Push queue msgPacket) }
      match built.2.PacketId with
      | none => .panic
      | some pid =>
        match s1.messageToAck with
        | none => .panic
        | some table =>
          .ret pid { s1 with messageToAck := some (ConMap.Push table pid timeoutPacket) }

/-- `MCUser.SendGroupMessage` (MCUser.go 191-202). `topicId` is a pointer: it is
dereferenced only after the payload test. -/
def SendGroupMessage (env : Env) (now : Int) (s : MCUser) (topicId : Option Int)
    (msgByte : Bytes) : Run String :=
  if msgByte.length = 0 then .ret "" s
  else
    match topicId with
    | none => .panic
    | some topic =>
      let built := env.BuildP2TMessagePacket s topic msgByte
      let timeoutPacket : MIMCTimeoutPacket := { timestamp := now, packet := built.2 }
      let msgPacket : MsgPacket :=
        { msgType := .MIMC_C2S_DOUBLE_DIRECTION, packet := built.1 }
      match s.messageToSend with
      | none => .panic
      | some queue =>
        let s1 := { s with messageToSend := some (ConQueue.Push queue msgPacket) }
        match built.2.PacketId with
        | none => .panic
        | some pid =>
          match s1.messageToAck with
          | none => .panic
          | some table =>
            .ret pid { s1 with messageToAck := some (ConMap.Push table pid timeoutPacket) }

/-- Value of a run of decimal digits, `none` at the first other character. -/
def digitsValue : List Char → Nat → Option Nat
  | [], acc => some acc
  | c :: cs, acc =>
    if c.isDigit then digitsValue cs (acc * 10 + (c.toNat - 48)) else none

/-- The standard `strconv.ParseInt(s, 10, 64)`: an optional sign, at least one
decimal digit, and a value that fits an int64; `none` is the error return. -/
def ParseInt (s : String) : Option Int :=
  let body (cs : List Char) : Option Nat :=
    if cs.isEmpty then none else digitsValue cs 0
  match s.toList with
  | '-' :: cs => (body cs).bind fun n => if n ≤ 2 ^ 63 then some (-(n : Int)) else none
  | '+' :: cs => (body cs).bind fun n => if n < 2 ^ 63 then some (n : Int) else none
  | cs => (body cs).bind fun n => if n < 2 ^ 63 then some (n : Int) else none

/-- `MCUser.Login` (MCUser.go 126-166). `fetched` is what `FetchToken()` returns
on this call. A single-value type assertion on a missing key or on a value of
another type is a runtime failure. -/
def Login (env : Env) (fetched : Option String) (s : MCUser) : Run Bool :=
  match s.tokenDelegate with
  | .nil => .ret false s
  | .registered =>
    let s := { s with calls := s.calls ++ [Call.FetchToken], tryLogin := true }
    match fetched with
    | none => .ret false s
    | some tokenJsonStr =>
      match env.unmarshal tokenJsonStr with
      | none => .ret false s
      | some tokenMap =>
        match tokenMap.lookup "data" with
        | some (.obj data) =>
          match tokenMap.lookup "code" with
          | some (.num code) =>
            if code ≠ 200 then .ret false s
            else
              match data.lookup "appPackage" with
              | some (.str appPackage) =>
                let s := { s with appPackage := appPackage }
                match data.lookup "miChid" with
                | some (.num chid) =>
                  let s := { s with chid := chid }
                  match data.lookup "miUserId" with
                  | some (.str miUserId) =>
                    match ParseInt miUserId with
                    | none => .ret false s
                    | some uuid =>
                      let s := { s with uuid := uuid }
                      match data.lookup "miUserSecurityKey" with
                      | some (.str key) =>
                        let s := { s with securityKey := key }
                        match data.lookup "token" with
                        | some (.str tokenStr) =>
                          .ret true { s with token := some tokenStr, tryLogin := false }
                        | some _ => .panic
                        | none => .ret false s
                      | _ => .panic
                  | _ => .panic
                | _ => .panic
              | _ => .panic
          | _ => .panic
        | _ => .panic

/-- Modelled from the spec: `NewConn()`, a connection that is not connected. -/
def NewConn : MIMCConnection :=
  { status := .NOT_CONNECTED, challenge := "", rc4Key := "", nextResetSockTs := 0 }

/-- Modelled from the spec: `MIMCConnection.Reset()` transitions to
NotConnected and clears the challenge and the body key. -/
def MIMCConnection.Reset (c : MIMCConnection) : MIMCConnection :=
  { c with status := .NOT_CONNECTED, challenge := "", rc4Key := "" }

/-- Modelled from the spec: `MIMCConnection.HandshakeConnected()` sets the status. -/
def MIMCConnection.HandshakeConnected (c : MIMCConnection) : MIMCConnection :=
  { c with status := .HANDSHAKE_CONNECTED }

/-- Modelled from the spec: `MIMCConnection.SetChallenge`. -/
def MIMCConnection.SetChallenge (c : MIMCConnection) (challenge : String) :
    MIMCConnection :=
  { c with challenge := challenge }

/-- Modelled from the spec: `MIMCConnection.SetChallengeAndRc4Key` stores the
challenge and installs the body key derived from it and the security key. -/
def MIMCConnection.SetChallengeAndRc4Key (env : Env) (securityKey : String)
    (c : MIMCConnection) (challenge : String) : MIMCConnection :=
  { c with challenge := challenge, rc4Key := env.deriveRc4Key challenge securityKey }

/-- The demultiplexing loop of `handleSecMsg` (MCUser.go 530-553): the P2P and
the P2T batch built from the packets of a list, `none` on a runtime failure. -/
def demux (env : Env) :
    List (Option MIMCPacket) → List P2PMessage → List P2TMessage →
      Option (List P2PMessage × List P2TMessage)
  | [], p2pMsgList, p2tMsgList => some (p2pMsgList, p2tMsgList)
  | none :: rest, p2pMsgList, p2tMsgList => demux env rest p2pMsgList p2tMsgList
  | some packet :: rest, p2pMsgList, p2tMsgList =>
    match packet.Type_ with
    | none => none
    | some .P2P_MESSAGE =>
      match env.decodeP2P packet.Payload with
      | none => demux env rest p2pMsgList p2tMsgList
      | some p2pMessage =>
        match p2pMessage.From with
        | none => none
        | some sender =>
          demux env rest
            (p2pMsgList ++ [{ packetId := packet.PacketId, fromAccount := sender.AppAccount,
                              fromResource := sender.Resource, sequence := packet.Sequence,
                              timestamp := packet.Timestamp, payload := p2pMessage.Payload }])
            p2tMsgList
    | some .P2T_MESSAGE =>
      match env.decodeP2T packet.Payload with
      | none => demux env rest p2pMsgList p2tMsgList
      | some p2tMessage =>
        match p2tMessage.From, p2tMessage.To with
        | some sender, some topic =>
          demux env rest p2pMsgList
            (p2tMsgList ++ [{ packetId := packet.PacketId, fromAccount := sender.AppAccount,
                              fromResource := sender.Resource, sequence := packet.Sequence,
                              timestamp := packet.Timestamp, topicId := topic.TopicId,
                              payload := p2tMessage.Payload }])
        | _, _ => none
    | some _ => demux env rest p2pMsgList p2tMsgList

/-- A call on the message delegate: a runtime failure when it is the nil
interface, otherwise the call is recorded. -/
def callMsgDelegate (s : MCUser) (c : Call) : Run Unit :=
  match s.msgDelegate with
  | .nil => .panic
  | .registered => .ret () { s with calls := s.calls ++ [c] }

/-- The end of the COMPOUND branch of `handleSecMsg` (MCUser.go 554-559): each
non-empty batch is handed to the message delegate. -/
def dispatchBatches (s : MCUser) (p2pMsgList : List P2PMessage)
    (p2tMsgList : List P2TMessage) : Run Unit :=
  let afterP2P : Run Unit :=
    if p2pMsgList.length > 0 then callMsgDelegate s (.HandleMessage p2pMsgList)
    else .ret () s
  match afterP2P with
  | .panic => .panic
  | .ret _ s2 =>
    if p2tMsgList.length > 0 then callMsgDelegate s2 (.HandleGroupMessage p2tMsgList)
    else .ret () s2

/-- `MCUser.handleSecMsg` (MCUser.go 489-565). A nil message delegate is only
logged at the top; the function goes on. A pop on a nil table and a push on a
nil queue are runtime failures. -/
def handleSecMsg (env : Env) (s : MCUser) (v6Packet : MIMCV6Packet) : Run Unit :=
  match env.decodePacket v6Packet.payload with
  | none => .ret () s
  | some mimcPacket =>
    match mimcPacket.Type_ with
    | none => .panic
    | some .PACKET_ACK =>
      match env.decodeAck mimcPacket.Payload with
      | none => .ret () s
      | some packetAck =>
        match callMsgDelegate s
            (.HandleServerAck packetAck.PacketId packetAck.Sequence packetAck.Timestamp) with
        | .panic => .panic
        | .ret _ s1 =>
          match packetAck.PacketId with
          | none => .panic
          | some pid =>
            match s1.messageToAck with
            | none => .panic
            | some table => .ret () { s1 with messageToAck := some (ConMap.Pop table pid).2 }
    | some .COMPOUND =>
      match env.decodeList mimcPacket.Payload with
      | none => .ret () s
      | some packetList =>
        match packetList.Resource with
        | none => .panic
        | some resource =>
          if s.resource ≠ resource then .ret () s
          else
            let seqAckPacket := env.BuildSequenceAckPacket s packetList
            let pktToSend : MsgPacket :=
              { msgType := .MIMC_C2S_SINGLE_DIRECTION, packet := seqAckPacket }
            match s.messageToSend with
            | none => .panic
            | some queue =>
              let s1 := { s with messageToSend := some (ConQueue.Push queue pktToSend) }
              match demux env packetList.Packets [] [] with
              | none => .panic
              | some (p2pMsgList, p2tMsgList) => dispatchBatches s1 p2pMsgList p2tMsgList
    | some _ => .ret () s

/-- The status notification of `handleResponse`: guarded by a nil test. -/
def notifyStatus (s : MCUser) (online : Bool) (errType errReason errDesc : Option String) :
    MCUser :=
  match s.statusDelegate with
  | .nil => s
  | .registered =>
    { s with calls := s.calls ++ [Call.HandleChange online errType errReason errDesc] }

/-- `MCUser.handleResponse` (MCUser.go 432-487). `fetched` is what `FetchToken()`
returns should the token-expiry branch call `Login`. -/
def handleResponse (env : Env) (fetched : Option String) (s : MCUser)
    (v6Packet : MIMCV6Packet) : Run Unit :=
  match v6Packet.header with
  | none => .panic
  | some header =>
    match header.Cmd with
    | none => .panic
    | some .CMD_SECMSG => handleSecMsg env s v6Packet
    | some .CMD_CONN =>
      match s.conn with
      | none => .panic
      | some conn =>
        match env.decodeConnResp v6Packet.payload with
        | none => .ret () { s with conn := some conn.Reset }
        | some connResp =>
          match connResp.Challenge with
          | none => .panic
          | some challenge =>
            let conn1 := conn.HandshakeConnected.SetChallenge challenge
            let conn2 := MIMCConnection.SetChallengeAndRc4Key env s.securityKey conn1 challenge
            .ret () { s with conn := some conn2 }
    | some .CMD_BIND =>
      match env.decodeBindResp v6Packet.payload with
      | none => .ret () s
      | some bindResp =>
        match bindResp.Result with
        | none => .panic
        | some true =>
          .ret () (notifyStatus { s with status := .Online, lastLoginTimestamp := 0 } true
            bindResp.ErrorType bindResp.ErrorReason bindResp.ErrorDesc)
        | some false =>
          match bindResp.ErrorType with
          | none => .panic
          | some errorType =>
            if env.MIMC_TOKEN_EXPIRE = errorType then
              match Login env fetched s with
              | .panic => .panic
              | .ret _ s1 =>
                .ret () (notifyStatus s1 false bindResp.ErrorType bindResp.ErrorReason
                  bindResp.ErrorDesc)
            else
              .ret () (notifyStatus { s with status := .Offline } false bindResp.ErrorType
                bindResp.ErrorReason bindResp.ErrorDesc)
    | some .CMD_KICK =>
      .ret () (notifyStatus { s with status := .Offline } false (some "kick") (some "kick")
        (some "kick"))
    | some _ => .ret () s

/-- How the scanning loop of `scanAndCallback` ends: it ran through the whole
snapshot, it left the function at a `Deserialize` failure, or it failed. -/
inductive ScanResult where
  | done (calls : List Call) (timeoutKeys : List String)
  | returned (calls : List Call)
  | panic
  deriving DecidableEq, Repr

/-- The first loop of `scanAndCallback` (MCUser.go 399-423) over the snapshot,
with the calls made and the keys collected so far. The clock is read once at
every record: `clock key` is the reading taken at the record of that key. -/
def scanLoop (env : Env) (clock : String → Int) :
    List (String × MIMCTimeoutPacket) → List Call → List String → ScanResult
  | [], calls, timeoutKeys => .done calls timeoutKeys
  | (key, timeoutPacket) :: rest, calls, timeoutKeys =>
    if sub64 (clock key) timeoutPacket.timestamp < env.CHECK_TIMEOUT_TIMEVAL_MS then
      scanLoop env clock rest calls timeoutKeys
    else
      let mimcPacket := timeoutPacket.packet
      match mimcPacket.Type_ with
      | none => .panic
      | some .P2P_MESSAGE =>
        match env.decodeP2P mimcPacket.Payload with
        | none => .returned calls
        | some p2pMessage =>
          match p2pMessage.From with
          | none => .panic
          | some sender =>
            scanLoop env clock rest
              (calls ++ [Call.HandleSendMessageTimeout
                { packetId := mimcPacket.PacketId, fromAccount := sender.AppAccount,
                  fromResource := sender.Resource, sequence := mimcPacket.Sequence,
                  timestamp := mimcPacket.Timestamp, payload := p2pMessage.Payload }])
              (timeoutKeys ++ [key])
      | some .P2T_MESSAGE =>
        match env.decodeP2T mimcPacket.Payload with
        | none => .returned calls
        | some p2tMessage =>
          match p2tMessage.From, p2tMessage.To with
          | some sender, some topic =>
            scanLoop env clock rest
              (calls ++ [Call.HandleSendGroupMessageTimeout
                { packetId := mimcPacket.PacketId, fromAccount := sender.AppAccount,
                  fromResource := sender.Resource, sequence := mimcPacket.Sequence,
                  timestamp := mimcPacket.Timestamp, topicId := topic.TopicId,
                  payload := p2tMessage.Payload }])
              (timeoutKeys ++ [key])
          | _, _ => .panic
      | some _ => scanLoop env clock rest calls (timeoutKeys ++ [key])

/-- The second loop of `scanAndCallback` (MCUser.go 424-429): pop every
collected key. -/
def popAll (m : ConMap) (timeoutKeys : List String) : ConMap :=
  timeoutKeys.foldl (fun acc key => (ConMap.Pop acc key).2) m

/-- `MCUser.scanAndCallback` (MCUser.go 390-430). Locking a nil table is a
runtime failure. -/
def scanAndCallback (env : Env) (clock : String → Int) (s : MCUser) : Run Unit :=
  match s.msgDelegate with
  | .nil => .ret () s
  | .registered =>
    match s.messageToAck with
    | none => .panic
    | some table =>
      match scanLoop env clock (ConMap.KVs table) s.calls [] with
      | .panic => .panic
      | .returned calls => .ret () { s with calls := calls }
      | .done calls timeoutKeys =>
        .ret () { s with calls := calls, messageToAck := some (popAll table timeoutKeys) }

/-- The decoded persistence file: the `map[string]interface{}` that
`json.Unmarshal` fills. -/
abbrev KVMap := List (String × JSON)

/-- The standard `encoding/json` as `SynchronizeWithFile` uses it. -/
structure JsonKV where
  /-- `json.Unmarshal(data, &kvs)`; `none` on error. -/
  unmarshal : String → Option KVMap
  /-- `json.Marshal(kvs)`. -/
  marshal : KVMap → String

/-- `f.WriteAt(data, 0)` on a file opened with `os.O_RDWR` and no `O_TRUNC`
(stringutil.go 149, 173): the start of the old content is overwritten and
what the old content has beyond the new data stays. Contents are ASCII, one
byte per character. -/
def writeAt0 (old data : String) : String :=
  data ++ String.mk (old.toList.drop data.length)

/-- How `SynchronizeWithFile` ends: it returns a pointer (`none` is nil) and
leaves the file with some content (`none`: it cannot be opened), or it panics. -/
inductive SyncResult where
  | ret (value : Option String) (file : Option String)
  | panic
  deriving DecidableEq, Repr

/-- `SynchronizeWithFile` (stringutil.go 148-180) over the text of the file;
the write itself is taken to succeed. -/
def SynchronizeWithFile (json : JsonKV) (key value : String) (file : Option String) :
    SyncResult :=
  match file with
  | none => .ret none none
  | some data =>
    if data.length = 0 then
      .ret (some value) (some (writeAt0 data (json.marshal [(key, .str value)])))
    else
      match json.unmarshal data with
      | none => .panic
      | some kvs =>
        match kvs.lookup key with
        | some (.str old) => .ret (some old) (some data)
        | some _ => .panic
        | none =>
          .ret (some value)
            (some (writeAt0 data (json.marshal ((key, .str value) :: kvs))))

/-- `MCUser.synchronizeResource` (MCUser.go 118-124): the key is
`<appId>_<appAccount>`; dereferencing a nil result is a runtime failure
(`none`), as is a panic of `SynchronizeWithFile`. The directory and file
creation of `SynchronizeResource` is left out: `file` is the file it hands to
`SynchronizeWithFile`. -/
def synchronizeResource (json : JsonKV) (s : MCUser) (file : Option String) :
    Option (MCUser × Option String) :=
  let key := toString s.appId ++ "_" ++ s.appAccount
  match SynchronizeWithFile json key s.resource file with
  | .panic => none
  | .ret none _ => none
  | .ret (some resource) file1 => some ({ s with resource := resource }, file1)

/-- `NewMCUser` (MCUser.go 89-92): every field has its zero value; the
connection, the queue and the table are nil. -/
def NewMCUser : MCUser :=
  { chid := 0, uuid := 0, resource := "", status := .Online, isLogout := false,
    clientAttrs := "", cloudAttrs := "", appId := 0, appAccount := "", appPackage := "",
    securityKey := "", token := none, tryLogin := false, conn := none,
    lastLoginTimestamp := 0, lastCreateConnTimestamp := 0, lastPingTimestamp := 0,
    tokenDelegate := .nil, statusDelegate := .nil, msgDelegate := .nil,
    messageToSend := none, messageToAck := none, calls := [] }

/-- `New` (MCUser.go 67-72). -/
def New (appId : Int) (appAccount : String) : MCUser :=
  { NewMCUser with appId := appId, appAccount := appAccount }

/-- `RegisterTokenDelegate` (MCUser.go 74-77). -/
def RegisterTokenDelegate (s : MCUser) : MCUser := { s with tokenDelegate := .registered }

/-- `RegisterStatusDelegate` (MCUser.go 79-82). -/
def RegisterStatusDelegate (s : MCUser) : MCUser := { s with statusDelegate := .registered }

/-- `RegisterMessageDelegate` (MCUser.go 84-87). -/
def RegisterMessageDelegate (s : MCUser) : MCUser := { s with msgDelegate := .registered }

/-- `MCUser.InitAndSetup` (MCUser.go 94-116), the three workers left out.
`randomStr` is what `RandomStrWithLength(10)` returns. -/
def InitAndSetup (json : JsonKV) (randomStr : String) (file : Option String)
    (s : MCUser) : Option (MCUser × Option String) :=
  synchronizeResource json
    { s with status := .Offline, resource := randomStr, lastLoginTimestamp := 0,
             lastCreateConnTimestamp := 0, lastPingTimestamp := 0, conn := some NewConn,
             messageToSend := some [], messageToAck := some [], appPackage := "",
             chid := 0, uuid := 0, token := some "", securityKey := "",
             clientAttrs := "", cloudAttrs := "", tryLogin := false }
    file

/-- What happens to a session after `InitAndSetup`: the application calls
`Login`, the receive worker hands a frame to `handleResponse`, or the
connection is reset. -/
inductive Event where
  | login (fetched : Option String)
  | frame (fetched : Option String) (v6Packet : MIMCV6Packet)
  | reset

/-- The session after one event, `none` when the event ends in a runtime failure. -/
def step (env : Env) (s : MCUser) : Event → Option MCUser
  | .login fetched =>
    match Login env fetched s with
    | .ret _ s1 => some s1
    | .panic => none
  | .frame fetched v6Packet =>
    match handleResponse env fetched s v6Packet with
    | .ret _ s1 => some s1
    | .panic => none
  | .reset =>
    match s.conn with
    | none => none
    | some conn => some { s with conn := some conn.Reset }

/-- The session after a sequence of events. -/
def runEvents (env : Env) (s : MCUser) : List Event → Option MCUser
  | [] => some s
  | e :: es =>
    match step env s e with
    | none => none
    | some s1 => runEvents env s1 es

/-- The invariant of the data model: an Online session has a security key and
a connection that completed the handshake. -/
def OnlineInvariant (s : MCUser) : Prop :=
  s.status = .Online →
    s.securityKey ≠ "" ∧ s.conn.map (fun c => c.status) = some .HANDSHAKE_CONNECTED

/-- A token bundle with every key present. -/
def goodBundle : String :=
  "\x7b\"code\":200,\"data\":\x7b\"appPackage\":\"com.demo\",\"miChid\":9,\"miUserId\":\"1234\",\"miUserSecurityKey\":\"k3y\",\"token\":\"t0k\"\x7d\x7d"

/-- A token bundle that lacks the key `appPackage`. -/
def bundleNoAppPackage : String :=
  "\x7b\"code\":200,\"data\":\x7b\"miChid\":9,\"miUserId\":\"1234\",\"miUserSecurityKey\":\"k3y\",\"token\":\"t0k\"\x7d\x7d"

/-- An error bundle: a code other than 200 and no `data`. -/
def bundleError : String := "\x7b\"code\":401\x7d"

/-- A token bundle with every key present and an empty `miUserSecurityKey`. -/
def bundleEmptyKey : String :=
  "\x7b\"code\":200,\"data\":\x7b\"appPackage\":\"com.demo\",\"miChid\":9,\"miUserId\":\"1234\",\"miUserSecurityKey\":\"\",\"token\":\"t0k\"\x7d\x7d"

/-- A sample environment for the concrete sessions below: a table-driven codec,
builders that name the packet after the recipient, and a decoder for the four
bundles above. -/
def demoEnv : Env where
  decodePacket := fun b =>
    match b with
    | [1] => some { PacketId := some "a1", Type_ := some .PACKET_ACK, Sequence := some 1,
                    Timestamp := some 5, Payload := [10] }
    | [2] => some { PacketId := some "c1", Type_ := some .COMPOUND, Sequence := some 2,
                    Timestamp := some 6, Payload := [20] }
    | [3] => some { PacketId := some "c2", Type_ := some .COMPOUND, Sequence := some 3,
                    Timestamp := some 7, Payload := [21] }
    | _ => none
  decodeAck := fun b =>
    match b with
    | [10] => some { PacketId := some "P-bob", Sequence := some 7, Timestamp := some 99 }
    | _ => none
  decodeList := fun b =>
    match b with
    | [20] => some { Resource := some "resA",
                     Packets := [some { PacketId := some "m1", Type_ := some .P2P_MESSAGE,
                                        Sequence := some 3, Timestamp := some 4,
                                        Payload := [30, 1] }] }
    | [21] => some { Resource := some "resB",
                     Packets := [some { PacketId := some "m1", Type_ := some .P2P_MESSAGE,
                                        Sequence := some 3, Timestamp := some 4,
                                        Payload := [30, 1] }] }
    | _ => none
  decodeP2P := fun b =>
    match b with
    | 30 :: body => some { From := some { AppAccount := some "alice", Resource := some "ra" },
                           Payload := body }
    | _ => none
  decodeP2T := fun b =>
    match b with
    | 40 :: body => some { From := some { AppAccount := some "alice", Resource := some "ra" },
                           To := some { TopicId := some 9 }, Payload := body }
    | _ => none
  decodeConnResp := fun b =>
    match b with
    | [50] => some { Challenge := some "X" }
    | _ => none
  decodeBindResp := fun b =>
    match b with
    | [60] => some { Result := some true, ErrorType := none, ErrorReason := none,
                     ErrorDesc := none }
    | [61] => some { Result := some false, ErrorType := some "token-expired",
                     ErrorReason := some "expired", ErrorDesc := none }
    | [62] => some { Result := some false, ErrorType := some "auth-fail",
                     ErrorReason := some "denied", ErrorDesc := none }
    | [63] => some { Result := some false, ErrorType := none, ErrorReason := none,
                     ErrorDesc := none }
    | _ => none
  BuildP2PMessagePacket := fun _ toAppAccount msgByte =>
    ({ header := some { Cmd := some .CMD_SECMSG, Id := some "h1" }, payload := 30 :: msgByte },
     { PacketId := some ("P-" ++ toAppAccount), Type_ := some .P2P_MESSAGE, Sequence := none,
       Timestamp := none, Payload := 30 :: msgByte })
  BuildP2TMessagePacket := fun _ topicId msgByte =>
    ({ header := some { Cmd := some .CMD_SECMSG, Id := some "h2" }, payload := 40 :: msgByte },
     { PacketId := some ("T-" ++ toString topicId), Type_ := some .P2T_MESSAGE,
       Sequence := none, Timestamp := none, Payload := 40 :: msgByte })
  BuildSequenceAckPacket := fun _ _ =>
    { header := some { Cmd := some .CMD_SECMSG, Id := some "h3" }, payload := [70] }
  unmarshal := fun str =>
    if str = goodBundle then
      some [("code", .num 200),
            ("data", .obj [("appPackage", .str "com.demo"), ("miChid", .num 9),
                           ("miUserId", .str "1234"), ("miUserSecurityKey", .str "k3y"),
                           ("token", .str "t0k")])]
    else if str = bundleNoAppPackage then
      some [("code", .num 200),
            ("data", .obj [("miChid", .num 9), ("miUserId", .str "1234"),
                           ("miUserSecurityKey", .str "k3y"), ("token", .str "t0k")])]
    else if str = bundleError then some [("code", .num 401)]
    else if str = bundleEmptyKey then
      some [("code", .num 200),
            ("data", .obj [("appPackage", .str "com.demo"), ("miChid", .num 9),
                           ("miUserId", .str "1234"), ("miUserSecurityKey", .str ""),
                           ("token", .str "t0k")])]
    else none
  deriveRc4Key := fun challenge securityKey => challenge ++ securityKey
  MIMC_TOKEN_EXPIRE := "token-expired"
  CHECK_TIMEOUT_TIMEVAL_MS := 10000

/-- A session of account `alice` right after `InitAndSetup`, with the random
resource `resA` and an empty persistence file. -/
def demoUser : MCUser :=
  { New 7 "alice" with
    status := .Offline, resource := "resA", conn := some NewConn, token := some "",
    messageToSend := some [], messageToAck := some [] }

/-- The sample session with the three delegates registered. -/
def demoUserRegistered : MCUser :=
  RegisterMessageDelegate (RegisterStatusDelegate (RegisterTokenDelegate demoUser))

/-- A received frame with the given command and payload. -/
def frameOf (cmd : Cmd) (payload : Bytes) : MIMCV6Packet :=
  { header := some { Cmd := some cmd, Id := some "r1" }, payload := payload }

/-- The sample session, observers registered, after two messages were sent at
time 1000: the outbound queue holds their frames and the unacked table the
records of `P-bob` and `P-carol`. -/
def demoUserSent : MCUser :=
  { demoUserRegistered with
    messageToSend := some
      [{ msgType := .MIMC_C2S_DOUBLE_DIRECTION,
         packet := (demoEnv.BuildP2PMessagePacket demoUser "carol" [3]).1 },
       { msgType := .MIMC_C2S_DOUBLE_DIRECTION,
         packet := (demoEnv.BuildP2PMessagePacket demoUser "bob" [1, 2]).1 }],
    messageToAck := some
      [("P-carol", { timestamp := 1000,
                     packet := (demoEnv.BuildP2PMessagePacket demoUser "carol" [3]).2 }),
       ("P-bob", { timestamp := 1000,
                   packet := (demoEnv.BuildP2PMessagePacket demoUser "bob" [1, 2]).2 })] }

/-- A session with a table that the session's own writes do not produce: two
expired P2P records, the payload of the second not deserializing as a
`MIMCP2PMessage`. -/
def demoUserStuck : MCUser :=
  { demoUserRegistered with
    messageToAck := some
      [("P1", { timestamp := 0,
                packet := { PacketId := some "P1", Type_ := some .P2P_MESSAGE,
                            Sequence := none, Timestamp := none, Payload := [30, 1] } }),
       ("P2", { timestamp := 0,
                packet := { PacketId := some "P2", Type_ := some .P2P_MESSAGE,
                            Sequence := none, Timestamp := none, Payload := [99] } })] }

/-- The timeout message `scanAndCallback` builds for the record `P1` above. -/
def demoTimeoutP1 : P2PMessage :=
  { packetId := some "P1", fromAccount := some "alice", fromResource := some "ra",
    sequence := none, timestamp := none, payload := [1] }

/-- The `miUserSecurityKey` string that the token bundle returned by
`FetchToken()` carries, if it carries one. -/
def bundleKey (env : Env) (fetched : Option String) : Option String :=
  match fetched with
  | none => none
  | some tokenJsonStr =>
    match env.unmarshal tokenJsonStr with
    | none => none
    | some tokenMap =>
      match tokenMap.lookup "data" with
      | some (.obj data) =>
        match data.lookup "miUserSecurityKey" with
        | some (.str key) => some key
        | _ => none
      | _ => none

/-- What a run remembers of its past: whether a `Login` has returned true, and
whether a CONN response has been handled on the current connection, that is
with no reset since. -/
structure History where
  loggedIn : Bool
  handshaked : Bool
  deriving DecidableEq, Repr

/-- The `Login` call an event makes in the state it meets, with its outcome:
the call of the application, or the call of `handleResponse` on a BIND
response with result = false and errorType TOKEN_EXPIRE. -/
def Event.loginRun (env : Env) (s : MCUser) : Event → Option (Run Bool)
  | .login fetched => some (Login env fetched s)
  | .reset => none
  | .frame fetched v6Packet =>
    match v6Packet.header.bind (fun h => h.Cmd) with
    | some .CMD_BIND =>
      match env.decodeBindResp v6Packet.payload with
      | some bindResp =>
        if bindResp.Result = some false ∧
            bindResp.ErrorType = some env.MIMC_TOKEN_EXPIRE then
          some (Login env fetched s)
        else none
      | none => none
    | _ => none

/-- The history after an event met in state `s`. -/
def History.after (env : Env) (s : MCUser) (h : History) (e : Event) : History :=
  { loggedIn :=
      match e.loginRun env s with
      | some (.ret true _) => true
      | _ => h.loggedIn,
    handshaked :=
      match e with
      | .login _ => h.handshaked
      | .reset => false
      | .frame _ v6Packet =>
        match v6Packet.header.bind (fun h => h.Cmd) with
        | some .CMD_CONN => (env.decodeConnResp v6Packet.payload).isSome
        | _ => h.handshaked }

/-- The order of the protocol at one event: the token bundle that a `Login`
call fetches does not carry an empty `miUserSecurityKey`; a BIND response with
result = true comes only after a `Login` that returned true and a CONN
response on the current connection; the connection is reset, directly or by a
CONN response that does not parse, only while the session is Offline. -/
def Event.inOrder (env : Env) (s : MCUser) (h : History) : Event → Prop
  | .login fetched => bundleKey env fetched ≠ some ""
  | .reset => s.status = .Offline
  | .frame fetched v6Packet =>
    ((Event.frame fetched v6Packet).loginRun env s ≠ none →
        bundleKey env fetched ≠ some "") ∧
      match v6Packet.header.bind (fun h => h.Cmd) with
      | some .CMD_CONN => env.decodeConnResp v6Packet.payload = none → s.status = .Offline
      | some .CMD_BIND =>
        ∀ bindResp, env.decodeBindResp v6Packet.payload = some bindResp →
          bindResp.Result = some true → h.loggedIn = true ∧ h.handshaked = true
      | _ => True

/-- Every event of the sequence comes in the order of the protocol. -/
def InOrder (env : Env) : MCUser → History → List Event → Prop
  | _, _, [] => True
  | s, h, e :: es =>
    Event.inOrder env s h e ∧
      match step env s e with
      | none => True
      | some s1 => InOrder env s1 (h.after env s e) es

/-- What a run in the order of the protocol keeps: after a `Login` that
returned true the security key is non-empty, after a CONN response on the
current connection the connection is HandshakeConnected, and the Online
invariant holds. -/
def HistoryInvariant (s : MCUser) (h : History) : Prop :=
  (h.loggedIn = true → s.securityKey ≠ "") ∧
    (h.handshaked = true →
      s.conn.map (fun c => c.status) = some .HANDSHAKE_CONNECTED) ∧
    OnlineInvariant s

/-- A login with the complete bundle, the CONN response carrying challenge `X`,
and a BIND response with result = true. -/
def demoEvents : List Event :=
  [.login (some goodBundle), .frame none (frameOf .CMD_CONN [50]),
   .frame none (frameOf .CMD_BIND [60])]

/-- A record is past the timeout: at the clock reading taken for it, its age
is CHECK_TIMEOUT_INTERVAL or more. -/
def expired (env : Env) (clock : String → Int) (e : String × MIMCTimeoutPacket) : Bool :=
  decide (env.CHECK_TIMEOUT_TIMEVAL_MS ≤ clock e.1 - e.2.timestamp)

/-- The send-timeout callback owed to an expired record, following the words
of the spec: HandleSendMessageTimeout for P2P, HandleSendGroupMessageTimeout
for P2T, none for another type or when the message cannot be decoded. -/
def timeoutCallback (env : Env) (p : MIMCPacket) : Option Call :=
  match p.Type_ with
  | some .P2P_MESSAGE =>
    match env.decodeP2P p.Payload with
    | some { From := some sender, Payload := payload } =>
      some (Call.HandleSendMessageTimeout
        { packetId := p.PacketId, fromAccount := sender.AppAccount,
          fromResource := sender.Resource, sequence := p.Sequence,
          timestamp := p.Timestamp, payload := payload })
    | _ => none
  | some .P2T_MESSAGE =>
    match env.decodeP2T p.Payload with
    | some { From := some sender, To := some topic, Payload := payload } =>
      some (Call.HandleSendGroupMessageTimeout
        { packetId := p.PacketId, fromAccount := sender.AppAccount,
          fromResource := sender.Resource, sequence := p.Sequence,
          timestamp := p.Timestamp, topicId := topic.TopicId, payload := payload })
    | _ => none
  | _ => none

/-- What the session's own writes leave in the unacked table: distinct
packet-ids, each record stamped with a clock value and holding a P2P or P2T
packet whose payload deserializes, so that its timeout callback can be built. -/
def SentTable (env : Env) (table : ConMap) : Prop :=
  (table.map Prod.fst).Nodup ∧
    ∀ e ∈ table, isClockValue e.2.timestamp ∧ (timeoutCallback env e.2.packet).isSome = true

/-- The builders return inner packets that deserialize again: the timeout
callback of a packet built by `BuildP2PMessagePacket` or `BuildP2TMessagePacket`
can be built. -/
def BuildersRoundTrip (env : Env) : Prop :=
  (∀ s toAppAccount msgByte,
    (timeoutCallback env (env.BuildP2PMessagePacket s toAppAccount msgByte).2).isSome = true) ∧
  (∀ s topicId msgByte,
    (timeoutCallback env (env.BuildP2TMessagePacket s topicId msgByte).2).isSome = true)

/-- The collaborators of the send loop that live outside MCUser.go: the three
frame builders (a builder may return nil, `none`) and the constants. -/
structure SendEnv extends Env where
  /-- `BuildConnectionPacket(conn.Udid(), user)`. -/
  BuildConnectionPacket : MCUser → Option MIMCV6Packet
  /-- `BuildBindPacket(user)`. -/
  BuildBindPacket : MCUser → Option MIMCV6Packet
  /-- `BuildPingPacket(user)`. -/
  BuildPingPacket : MCUser → Option MIMCV6Packet
  /-- The constant `cnst.CONNECT_TIMEOUT`. -/
  CONNECT_TIMEOUT : Int
  /-- The constant `cnst.LOGIN_TIMEOUT`. -/
  LOGIN_TIMEOUT : Int
  /-- The constant `cnst.PING_TIMEVAL_MS`. -/
  PING_TIMEVAL_MS : Int
  /-- The response timeout that `TrySetNextResetSockTs` adds to the clock. -/
  RESPONSE_TIMEOUT : Int

/-- What one iteration of the send loop gets from outside: the clock reading
at each `CurrentTimeMillis()` it can reach (by source line), whether
`Connect()` succeeds, what `FetchToken()` returns, and whether `Writen` writes
the whole frame. -/
structure SendInput where
  /-- Reading of line 215. -/
  tConnCheck : Int
  /-- Reading of line 220. -/
  tConnStart : Int
  /-- Reading of line 234. -/
  tHandshake : Int
  /-- Reading of line 247. -/
  tLogin : Int
  /-- Reading of line 253. -/
  tPing : Int
  /-- Reading inside `TrySetNextResetSockTs` (line 280). -/
  tWatchdog : Int
  /-- Reading of line 286. -/
  tWrite : Int
  connectOk : Bool
  fetched : Option String
  writeOk : Bool

/-- The same clock value at every reading of an iteration. -/
def SendInput.atTime (now : Int) (connectOk : Bool) (fetched : Option String)
    (writeOk : Bool) : SendInput :=
  { tConnCheck := now, tConnStart := now, tHandshake := now, tLogin := now, tPing := now,
    tWatchdog := now, tWrite := now, connectOk := connectOk, fetched := fetched,
    writeOk := writeOk }

/-- Modelled from the spec: `MIMCConnection.Sock_Connected()`, the transition
to SockConnected after a successful `Connect()`. -/
def MIMCConnection.Sock_Connected (c : MIMCConnection) : MIMCConnection :=
  { c with status := .SOCK_CONNECTED }

/-- Modelled from the spec: `MIMCConnection.TrySetNextResetSockTs()`, if the
watchdog is unset (zero) it becomes now + response timeout. -/
def MIMCConnection.TrySetNextResetSockTs (c : MIMCConnection) (now timeout : Int) :
    MIMCConnection :=
  if c.nextResetSockTs = 0 then { c with nextResetSockTs := now + timeout } else c

/-- Where a part of the loop body leaves the iteration: it falls through to
the next statement with the frame chosen so far, it executes `continue`, or it
fails at run time. `msgType` is the variable declared before the loop. -/
inductive Phase where
  | next (s : MCUser) (msgType : Direction) (pkt : Option MIMCV6Packet)
  | again (s : MCUser) (msgType : Direction)
  | panic

/-- The NOT_CONNECTED block of `sendRoutine` (MCUser.go 212-229); `pkt` starts
as nil. -/
def connectPhase (env : SendEnv) (inp : SendInput) (msgType : Direction) (s : MCUser) :
    Phase :=
  match s.conn with
  | none => .panic
  | some conn =>
    if conn.status = .NOT_CONNECTED then
      if sub64 inp.tConnCheck s.lastCreateConnTimestamp ≤ env.CONNECT_TIMEOUT then
        .again s msgType
      else
        let s1 := { s with lastCreateConnTimestamp := inp.tConnStart }
        if inp.connectOk = false then .again s1 msgType
        else
          let s2 := { s1 with conn := some conn.Sock_Connected, lastCreateConnTimestamp := 0 }
          .next s2 msgType (env.BuildConnectionPacket s2)
    else .next s msgType none

/-- The SOCK_CONNECTED and HANDSHAKE_CONNECTED blocks of `sendRoutine`
(MCUser.go 230-248). The SOCK_CONNECTED block only sleeps and falls through. -/
def handshakePhase (env : SendEnv) (inp : SendInput) (msgType : Direction) (s : MCUser)
    (pkt : Option MIMCV6Packet) : Phase :=
  match s.conn with
  | none => .panic
  | some conn =>
    if conn.status = .HANDSHAKE_CONNECTED then
      if s.status = .Offline ∧
          sub64 inp.tHandshake s.lastLoginTimestamp ≤ env.LOGIN_TIMEOUT then
        .again s msgType
      else if s.status = .Offline ∧
          sub64 inp.tHandshake s.lastLoginTimestamp > env.LOGIN_TIMEOUT then
        match env.BuildBindPacket s with
        | none => .again s msgType
        | some bind => .next { s with lastLoginTimestamp := inp.tLogin } msgType (some bind)
      else .next { s with lastLoginTimestamp := inp.tLogin } msgType pkt
    else .next s msgType pkt

/-- The Online test of `sendRoutine` and its else branch (MCUser.go 249-274). A
pop on a nil queue is a runtime failure. -/
def onlinePhase (env : SendEnv) (inp : SendInput) (msgType : Direction) (s : MCUser)
    (pkt : Option MIMCV6Packet) : Phase :=
  if s.status = .Online then
    match s.messageToSend with
    | none => .panic
    | some queue =>
      match ConQueue.Pop queue with
      | (none, _) =>
        if sub64 inp.tPing s.lastLoginTimestamp > env.PING_TIMEVAL_MS then
          .next s msgType (env.BuildPingPacket s)
        else .again s msgType
      | (some msgPacket, rest) =>
        .next { s with messageToSend := some rest } msgPacket.msgType
          (some msgPacket.packet)
  else if s.tryLogin = true then
    match Login env.toEnv inp.fetched s with
    | .panic => .panic
    | .ret _ s1 => .next s1 msgType pkt
  else .next s msgType pkt

/-- The outcome of one iteration: the value of `msgType` it leaves and the
frame it handed to `Writen`, if any. -/
structure SendStep where
  msgType : Direction
  written : Option MIMCV6Packet
  deriving DecidableEq, Repr

/-- The end of the loop body of `sendRoutine` (MCUser.go 275-298): nothing is
written when `pkt` is nil; a short write resets the connection. -/
def writePhase (env : SendEnv) (inp : SendInput) (msgType : Direction) (s : MCUser)
    (pkt : Option MIMCV6Packet) : Run SendStep :=
  match pkt with
  | none => .ret { msgType := msgType, written := none } s
  | some frame =>
    match s.conn with
    | none => .panic
    | some conn =>
      let conn1 :=
        if msgType = .MIMC_C2S_DOUBLE_DIRECTION then
          conn.TrySetNextResetSockTs inp.tWatchdog env.RESPONSE_TIMEOUT
        else conn
      let s1 := { s with conn := some conn1, lastPingTimestamp := inp.tWrite }
      if inp.writeOk = true then .ret { msgType := msgType, written := some frame } s1
      else .ret { msgType := msgType, written := some frame }
        { s1 with conn := some conn1.Reset }

/-- One iteration of the loop of `sendRoutine` (MCUser.go 211-299), taken as
one sequential step: the other workers do not run in between. -/
def sendIteration (env : SendEnv) (inp : SendInput) (msgType : Direction) (s : MCUser) :
    Run SendStep :=
  match connectPhase env inp msgType s with
  | .panic => .panic
  | .again s1 msgType1 => .ret { msgType := msgType1, written := none } s1
  | .next s1 msgType1 pkt1 =>
    match handshakePhase env inp msgType1 s1 pkt1 with
    | .panic => .panic
    | .again s2 msgType2 => .ret { msgType := msgType2, written := none } s2
    | .next s2 msgType2 pkt2 =>
      match onlinePhase env inp msgType2 s2 pkt2 with
      | .panic => .panic
      | .again s3 msgType3 => .ret { msgType := msgType3, written := none } s3
      | .next s3 msgType3 pkt3 => writePhase env inp msgType3 s3 pkt3

/-- A sample send environment: fixed CONN, BIND and PING frames (no BIND frame
without a token), timeouts of 5 s and a ping interval of 15 s. -/
def demoSendEnv : SendEnv :=
  { toEnv := demoEnv,
    BuildConnectionPacket := fun _ => some (frameOf .CMD_CONN [80]),
    BuildBindPacket := fun u =>
      match u.token with
      | some "" => none
      | none => none
      | some _ => some (frameOf .CMD_BIND [81]),
    BuildPingPacket := fun _ => some { header := none, payload := [] },
    CONNECT_TIMEOUT := 5000,
    LOGIN_TIMEOUT := 5000,
    PING_TIMEVAL_MS := 15000,
    RESPONSE_TIMEOUT := 10000 }

/-- A session that is Online on a connection that is only SockConnected, with
one message for `bob` waiting in the outbound queue. -/
def demoUserOnlineSock : MCUser :=
  { demoUserRegistered with
    status := .Online, securityKey := "k3y", token := some "t0k",
    conn := some { NewConn with status := .SOCK_CONNECTED },
    messageToSend := some
      [{ msgType := .MIMC_C2S_DOUBLE_DIRECTION,
         packet := (demoEnv.BuildP2PMessagePacket demoUser "bob" [1, 2]).1 }] }

/-- A session that is Online on a HandshakeConnected connection with an empty
outbound queue and `lastLoginTimestamp` 0, as the BIND response left it. -/
def demoUserIdle : MCUser :=
  { demoUserRegistered with
    status := .Online, securityKey := "k3y", token := some "t0k",
    conn := some { NewConn with status := .HANDSHAKE_CONNECTED, challenge := "X",
                                rc4Key := "Xk3y" },
    lastLoginTimestamp := 0 }

/-- The idle session with one message for `bob` waiting in the outbound queue. -/
def demoUserQueued : MCUser :=
  { demoUserIdle with
    messageToSend := some
      [{ msgType := .MIMC_C2S_DOUBLE_DIRECTION,
         packet := (demoEnv.BuildP2PMessagePacket demoUser "bob" [1, 2]).1 }] }

/-- One entry of a JSON object as `json.Marshal` prints it; only string values
are needed here. -/
def renderEntry (e : String × JSON) : String :=
  match e.2 with
  | .str v => "\"" ++ e.1 ++ "\":\"" ++ v ++ "\""
  | _ => "\"" ++ e.1 ++ "\":null"

/-- The order in which `json.Marshal` prints the keys of a map: by character
code, a proper start of a key before the key. -/
def keyBefore : List Char → List Char → Bool
  | [], [] => false
  | [], _ :: _ => true
  | _ :: _, [] => false
  | a :: as, b :: bs =>
    if a.toNat < b.toNat then true
    else if b.toNat < a.toNat then false
    else keyBefore as bs

/-- Insertion of an entry by key order. -/
def insertSorted (e : String × JSON) : KVMap → KVMap
  | [] => [e]
  | x :: xs =>
    if keyBefore e.1.toList x.1.toList then e :: x :: xs else x :: insertSorted e xs

/-- The text `json.Marshal` prints for a map of strings: the entries in key
order, no white space. -/
def demoMarshal (m : KVMap) : String :=
  "\x7b" ++ ",".intercalate ((m.foldr insertSorted []).map renderEntry) ++ "\x7d"

/-- A persistence file that holds the resource of another account and was
formatted by hand: valid JSON, 30 blanks after the opening brace. -/
def paddedFile : String :=
  "\x7b                              \"8_bob\":\"resB\"\x7d"

/-- A sample `encoding/json`: `demoMarshal`, and a decoder for the file texts
used below; any other text, such as one with bytes after the closing brace, is
an error. -/
def demoJson : JsonKV where
  unmarshal := fun data =>
    if data = paddedFile then some [("8_bob", .str "resB")]
    else if data = "\x7b\"7_alice\":\"resA\"\x7d" then some [("7_alice", .str "resA")]
    else if data = "\x7b\"7_alice\":\"resA\",\"8_bob\":\"resB\"\x7d" then
      some [("7_alice", .str "resA"), ("8_bob", .str "resB")]
    else none
  marshal := demoMarshal

/-- A session that is Offline on a HandshakeConnected connection and holds a
token, so that the send loop is about to bind. -/
def demoUserBinding : MCUser :=
  { demoUserRegistered with
    securityKey := "k3y", token := some "t0k",
    conn := some { NewConn with status := .HANDSHAKE_CONNECTED, challenge := "X",
                                rc4Key := "Xk3y" } }

/-- The sample session with three records in the unacked table, as its own
sends left them: a P2P message sent at 1000, a P2T message sent at 2000 and a
P2P message sent at 15000. -/
def demoUserWaiting : MCUser :=
  { demoUserRegistered with
    messageToAck := some
      [("P-carol", { timestamp := 1000,
                     packet := (demoEnv.BuildP2PMessagePacket demoUser "carol" [3]).2 }),
       ("T-5", { timestamp := 2000,
                 packet := (demoEnv.BuildP2TMessagePacket demoUser 5 [4]).2 }),
       ("P-bob", { timestamp := 15000,
                   packet := (demoEnv.BuildP2PMessagePacket demoUser "bob" [1, 2]).2 })] }

/-! ## The unacked table -/

theorem lookup_cons_ne {β : Type} (k k1 : String) (v : β) (m : List (String × β))
    (h : k ≠ k1) : List.lookup k ((k1, v) :: m) = List.lookup k m := by
  have hk : (k == k1) = false := by simpa using h
  simp [List.lookup, hk]

theorem lookup_cons_self {β : Type} (k : String) (v : β) (m : List (String × β)) :
    List.lookup k ((k, v) :: m) = some v := by
  simp [List.lookup]

theorem ConMap.filter_cons_eq (k k1 : String) (v : MIMCTimeoutPacket) (m : ConMap)
    (h : k1 = k) :
    List.filter (fun e => e.1 != k) ((k1, v) :: m) = List.filter (fun e => e.1 != k) m := by
  have hb : ((k1, v).1 != k) = false := by simp [h]
  rw [List.filter_cons, hb]; rfl

theorem ConMap.filter_cons_ne (k k1 : String) (v : MIMCTimeoutPacket) (m : ConMap)
    (h : k1 ≠ k) :
    List.filter (fun e => e.1 != k) ((k1, v) :: m)
      = (k1, v) :: List.filter (fun e => e.1 != k) m := by
  have hb : ((k1, v).1 != k) = true := by simp [h]
  rw [List.filter_cons, hb]; rfl

theorem ConMap.lookup_filter_self (m : ConMap) (k : String) :
    List.lookup k (m.filter (fun e => e.1 != k)) = none := by
  induction m with
  | nil => rfl
  | cons e rest ih =>
    obtain ⟨k1, v1⟩ := e
    by_cases h : k1 = k
    · rw [ConMap.filter_cons_eq k k1 v1 rest h]; exact ih
    · rw [ConMap.filter_cons_ne k k1 v1 rest h,
        lookup_cons_ne k k1 v1 _ (fun h1 => h h1.symm)]
      exact ih

theorem ConMap.lookup_filter_other (m : ConMap) (k k1 : String) (h : k1 ≠ k) :
    List.lookup k1 (m.filter (fun e => e.1 != k)) = List.lookup k1 m := by
  induction m with
  | nil => rfl
  | cons e rest ih =>
    obtain ⟨k2, v2⟩ := e
    by_cases h2 : k2 = k
    · rw [ConMap.filter_cons_eq k k2 v2 rest h2,
        lookup_cons_ne k1 k2 v2 rest (by rw [h2]; exact h)]
      exact ih
    · rw [ConMap.filter_cons_ne k k2 v2 rest h2]
      by_cases h3 : k1 = k2
      · subst h3
        rw [lookup_cons_self, lookup_cons_self]
      · rw [lookup_cons_ne k1 k2 v2 _ h3, lookup_cons_ne k1 k2 v2 _ h3]
        exact ih

theorem ConMap.Get_Push_self (m : ConMap) (k : String) (v : MIMCTimeoutPacket) :
    ConMap.Get (ConMap.Push m k v) k = some v := by
  simp [ConMap.Get, ConMap.Push, lookup_cons_self]

theorem ConMap.Get_Push_other (m : ConMap) (k k1 : String) (v : MIMCTimeoutPacket)
    (h : k1 ≠ k) : ConMap.Get (ConMap.Push m k v) k1 = ConMap.Get m k1 := by
  unfold ConMap.Get ConMap.Push
  rw [lookup_cons_ne k1 k v _ h, ConMap.lookup_filter_other m k k1 h]

theorem ConMap.Get_Pop_self (m : ConMap) (k : String) :
    ConMap.Get (ConMap.Pop m k).2 k = none := by
  simp [ConMap.Get, ConMap.Pop, ConMap.lookup_filter_self]

theorem ConMap.Get_Pop_other (m : ConMap) (k k1 : String) (h : k1 ≠ k) :
    ConMap.Get (ConMap.Pop m k).2 k1 = ConMap.Get m k1 := by
  simp [ConMap.Get, ConMap.Pop, ConMap.lookup_filter_other m k k1 h]

/-! ## The sample session -/

theorem demoUser_is_initialised :
    InitAndSetup demoJson "resA" (some "") (New 7 "alice")
      = some (demoUser, some "\x7b\"7_alice\":\"resA\"\x7d") := rfl

theorem demoUserRegistered_is_initialised :
    InitAndSetup demoJson "resA" (some "")
        (RegisterMessageDelegate (RegisterStatusDelegate (RegisterTokenDelegate (New 7 "alice"))))
      = some (demoUserRegistered, some "\x7b\"7_alice\":\"resA\"\x7d") := rfl

/-! ## Sending -/

theorem SendMessage_nonempty (env : Env) (now : Int) (s : MCUser) (toAppAccount : String)
    (msgByte : Bytes) (p : String) (queue : ConQueue) (table : ConMap)
    (hqueue : s.messageToSend = some queue) (htable : s.messageToAck = some table)
    (hlen : ¬ msgByte.length = 0)
    (hp : (env.BuildP2PMessagePacket s toAppAccount msgByte).2.PacketId = some p) :
    SendMessage env now s toAppAccount msgByte = .ret p
      { s with
        messageToSend := some (ConQueue.Push queue
          { msgType := .MIMC_C2S_DOUBLE_DIRECTION,
            packet := (env.BuildP2PMessagePacket s toAppAccount msgByte).1 }),
        messageToAck := some (ConMap.Push table p
          { timestamp := now,
            packet := (env.BuildP2PMessagePacket s toAppAccount msgByte).2 }) } := by
  simp only [SendMessage, hlen, if_false, hp, hqueue, htable]

theorem SendGroupMessage_nonempty (env : Env) (now : Int) (s : MCUser) (topicId : Int)
    (msgByte : Bytes) (q : String) (queue : ConQueue) (table : ConMap)
    (hqueue : s.messageToSend = some queue) (htable : s.messageToAck = some table)
    (hlen : ¬ msgByte.length = 0)
    (hq : (env.BuildP2TMessagePacket s topicId msgByte).2.PacketId = some q) :
    SendGroupMessage env now s (some topicId) msgByte = .ret q
      { s with
        messageToSend := some (ConQueue.Push queue
          { msgType := .MIMC_C2S_DOUBLE_DIRECTION,
            packet := (env.BuildP2TMessagePacket s topicId msgByte).1 }),
        messageToAck := some (ConMap.Push table q
          { timestamp := now,
            packet := (env.BuildP2TMessagePacket s topicId msgByte).2 }) } := by
  simp only [SendGroupMessage, hlen, if_false, hq, hqueue, htable]

theorem SendMessage_nil_queue (env : Env) (now : Int) (s : MCUser) (toAppAccount : String)
    (topicId : Option Int) (msgByte : Bytes) (hmsg : msgByte ≠ [])
    (hqueue : s.messageToSend = none) :
    SendMessage env now s toAppAccount msgByte = .panic ∧
      SendGroupMessage env now s topicId msgByte = .panic := by
  have hlen : ¬ msgByte.length = 0 := fun h => hmsg (List.length_eq_zero.mp h)
  constructor
  · simp only [SendMessage, hlen, if_false, hqueue]
  · cases topicId <;> simp only [SendGroupMessage, hlen, if_false, hqueue]

/-- C1, as the code has it: for every session in which the outbound queue and
the unacked table exist (every session from `InitAndSetup` on), every
recipient (or topic id) and every non-empty payload, `SendMessage`
(`SendGroupMessage`) returns the packet-id of the inner packet it built; the
outbound queue is the old queue with one `C2S_DOUBLE` frame appended at the
tail, and the unacked table maps the returned id to a record holding the inner
packet, every other entry unchanged. -/
theorem SendMessage_enqueues_and_records (env : Env) (now : Int) (s : MCUser)
    (toAppAccount : String) (topicId : Int) (msgByte : Bytes) (p q : String)
    (queue : ConQueue) (table : ConMap)
    (hqueue : s.messageToSend = some queue) (htable : s.messageToAck = some table)
    (hmsg : msgByte ≠ [])
    (hp : (env.BuildP2PMessagePacket s toAppAccount msgByte).2.PacketId = some p)
    (hq : (env.BuildP2TMessagePacket s topicId msgByte).2.PacketId = some q) :
    (∃ s1 table1, SendMessage env now s toAppAccount msgByte = .ret p s1 ∧
      s1.messageToSend = some (queue ++
        [{ msgType := .MIMC_C2S_DOUBLE_DIRECTION,
           packet := (env.BuildP2PMessagePacket s toAppAccount msgByte).1 }]) ∧
      s1.messageToAck = some table1 ∧
      ConMap.Get table1 p = some
        { timestamp := now, packet := (env.BuildP2PMessagePacket s toAppAccount msgByte).2 } ∧
      ∀ k, k ≠ p → ConMap.Get table1 k = ConMap.Get table k) ∧
    (∃ s2 table2, SendGroupMessage env now s (some topicId) msgByte = .ret q s2 ∧
      s2.messageToSend = some (queue ++
        [{ msgType := .MIMC_C2S_DOUBLE_DIRECTION,
           packet := (env.BuildP2TMessagePacket s topicId msgByte).1 }]) ∧
      s2.messageToAck = some table2 ∧
      ConMap.Get table2 q = some
        { timestamp := now, packet := (env.BuildP2TMessagePacket s topicId msgByte).2 } ∧
      ∀ k, k ≠ q → ConMap.Get table2 k = ConMap.Get table k) := by
  have hlen : ¬ msgByte.length = 0 := by
    intro h
    exact hmsg (List.length_eq_zero.mp h)
  have h1 := SendMessage_nonempty env now s toAppAccount msgByte p queue table hqueue htable
    hlen hp
  have h2 := SendGroupMessage_nonempty env now s topicId msgByte q queue table hqueue htable
    hlen hq
  refine ⟨⟨_, _, h1, rfl, rfl, ConMap.Get_Push_self _ _ _, ?_⟩,
    ⟨_, _, h2, rfl, rfl, ConMap.Get_Push_self _ _ _, ?_⟩⟩
  · intro k hk
    exact ConMap.Get_Push_other _ _ _ _ hk
  · intro k hk
    exact ConMap.Get_Push_other _ _ _ _ hk

/-- C1 at a concrete session: with two frames in the queue and the records of
`P-carol` and `P-bob` in the table, `alice` sends one byte to `dave` and to
topic 5. -/
theorem SendMessage_enqueues_and_records_witness :
    (∃ s1 table1, SendMessage demoEnv 2000 demoUserSent "dave" [9] = .ret "P-dave" s1 ∧
      s1.messageToSend = some
        ([{ msgType := .MIMC_C2S_DOUBLE_DIRECTION,
            packet := (demoEnv.BuildP2PMessagePacket demoUser "carol" [3]).1 },
          { msgType := .MIMC_C2S_DOUBLE_DIRECTION,
            packet := (demoEnv.BuildP2PMessagePacket demoUser "bob" [1, 2]).1 }] ++
        [{ msgType := .MIMC_C2S_DOUBLE_DIRECTION,
           packet := (demoEnv.BuildP2PMessagePacket demoUserSent "dave" [9]).1 }]) ∧
      s1.messageToAck = some table1 ∧
      ConMap.Get table1 "P-dave" = some
        { timestamp := 2000,
          packet := (demoEnv.BuildP2PMessagePacket demoUserSent "dave" [9]).2 } ∧
      ∀ k, k ≠ "P-dave" → ConMap.Get table1 k =
        ConMap.Get
          [("P-carol", { timestamp := 1000,
                         packet := (demoEnv.BuildP2PMessagePacket demoUser "carol" [3]).2 }),
           ("P-bob", { timestamp := 1000,
                       packet := (demoEnv.BuildP2PMessagePacket demoUser "bob" [1, 2]).2 })]
          k) ∧
    (∃ s2 table2, SendGroupMessage demoEnv 2000 demoUserSent (some 5) [9] = .ret "T-5" s2 ∧
      s2.messageToSend = some
        ([{ msgType := .MIMC_C2S_DOUBLE_DIRECTION,
            packet := (demoEnv.BuildP2PMessagePacket demoUser "carol" [3]).1 },
          { msgType := .MIMC_C2S_DOUBLE_DIRECTION,
            packet := (demoEnv.BuildP2PMessagePacket demoUser "bob" [1, 2]).1 }] ++
        [{ msgType := .MIMC_C2S_DOUBLE_DIRECTION,
           packet := (demoEnv.BuildP2TMessagePacket demoUserSent 5 [9]).1 }]) ∧
      s2.messageToAck = some table2 ∧
      ConMap.Get table2 "T-5" = some
        { timestamp := 2000, packet := (demoEnv.BuildP2TMessagePacket demoUserSent 5 [9]).2 } ∧
      ∀ k, k ≠ "T-5" → ConMap.Get table2 k =
        ConMap.Get
          [("P-carol", { timestamp := 1000,
                         packet := (demoEnv.BuildP2PMessagePacket demoUser "carol" [3]).2 }),
           ("P-bob", { timestamp := 1000,
                       packet := (demoEnv.BuildP2PMessagePacket demoUser "bob" [1, 2]).2 })]
          k) :=
  SendMessage_enqueues_and_records demoEnv 2000 demoUserSent "dave" 5 [9] "P-dave" "T-5"
    _ _ rfl rfl (by decide) rfl rfl

/-- C1 as stated fails: a session created by `New` has no queue and no table
until `InitAndSetup`, and in that state `SendMessage` and `SendGroupMessage`
with a non-empty payload end in a runtime failure at the push of line 185 (199)
instead of returning a packet-id. -/
theorem SendMessage_fails_before_InitAndSetup :
    (New 7 "alice").messageToSend = none ∧
      SendMessage demoEnv 1000 (New 7 "alice") "bob" [1, 2] = .panic ∧
      SendGroupMessage demoEnv 1000 (New 7 "alice") (some 5) [1, 2] = .panic :=
  ⟨rfl, rfl, rfl⟩

/-- C2: with a nil or zero-length payload `SendMessage` and `SendGroupMessage`
return the empty string and leave the session, and so the outbound queue and
the unacked table, as they were; the topic pointer is not even dereferenced. -/
theorem SendMessage_empty_payload (env : Env) (now : Int) (s : MCUser)
    (toAppAccount : String) (topicId : Option Int) :
    SendMessage env now s toAppAccount [] = .ret "" s ∧
      SendGroupMessage env now s topicId [] = .ret "" s := by
  constructor <;> rfl

/-! ## Login -/

theorem Login_no_provider (env : Env) (fetched : Option String) (s : MCUser)
    (h : s.tokenDelegate = .nil) : Login env fetched s = .ret false s := by
  simp only [Login, h]

theorem Login_missing_data (env : Env) (s : MCUser) (str : String)
    (tokenMap : List (String × JSON)) (h : s.tokenDelegate = .registered)
    (hu : env.unmarshal str = some tokenMap) (hd : tokenMap.lookup "data" = none) :
    Login env (some str) s = .panic := by
  simp only [Login, h, hu, hd]

theorem Login_calls (env : Env) (fetched : Option String) (s s1 : MCUser) (b : Bool)
    (h : s.tokenDelegate = .registered) (hr : Login env fetched s = .ret b s1) :
    s1.calls = s.calls ++ [Call.FetchToken] := by
  unfold Login at hr
  rw [h] at hr
  simp only at hr
  repeat' split at hr
  all_goals first
    | exact Run.noConfusion hr
    | (injection hr with _ hs; subst hs; rfl)

theorem Login_status (env : Env) (fetched : Option String) (s s1 : MCUser) (b : Bool)
    (hr : Login env fetched s = .ret b s1) :
    s1.status = s.status ∧ s1.conn = s.conn ∧ s1.statusDelegate = s.statusDelegate := by
  unfold Login at hr
  repeat' split at hr
  all_goals first
    | exact Run.noConfusion hr
    | (injection hr with _ hs; subst hs; exact ⟨rfl, rfl, rfl⟩)

theorem Login_code_not_200 (env : Env) (s : MCUser) (str : String)
    (tokenMap data : List (String × JSON)) (code : Int) (h : s.tokenDelegate = .registered)
    (hu : env.unmarshal str = some tokenMap) (hd : tokenMap.lookup "data" = some (.obj data))
    (hc : tokenMap.lookup "code" = some (.num code)) (hne : code ≠ 200) :
    Login env (some str) s
      = .ret false { s with calls := s.calls ++ [Call.FetchToken], tryLogin := true } := by
  simp only [Login, h, hu, hd, hc, hne, ne_eq, not_false_eq_true, if_true]

/-- C3: with a TokenProvider registered, a bundle for which the key `appPackage`
is missing, and an error bundle with code 401 and no `data`, both make `Login`
fail at run time instead of returning false; without a provider it returns
false. -/
theorem Login_missing_key_is_runtime_failure :
    Login demoEnv (some bundleNoAppPackage) (RegisterTokenDelegate demoUser) = .panic ∧
      Login demoEnv (some bundleError) (RegisterTokenDelegate demoUser) = .panic ∧
      Login demoEnv (some goodBundle) demoUser = .ret false demoUser := by
  refine ⟨rfl, rfl, rfl⟩

/-! ## Received frames -/

theorem handleResponse_bind_eq (env : Env) (fetched : Option String) (s : MCUser)
    (v6Packet : MIMCV6Packet) (header : ClientHeader) (bindResp : XMMsgBindResp)
    (hh : v6Packet.header = some header) (hc : header.Cmd = some .CMD_BIND)
    (hd : env.decodeBindResp v6Packet.payload = some bindResp) :
    handleResponse env fetched s v6Packet =
      match bindResp.Result with
      | none => .panic
      | some true =>
        .ret () (notifyStatus { s with status := .Online, lastLoginTimestamp := 0 } true
          bindResp.ErrorType bindResp.ErrorReason bindResp.ErrorDesc)
      | some false =>
        match bindResp.ErrorType with
        | none => .panic
        | some errorType =>
          if env.MIMC_TOKEN_EXPIRE = errorType then
            match Login env fetched s with
            | .panic => .panic
            | .ret _ s1 =>
              .ret () (notifyStatus s1 false bindResp.ErrorType bindResp.ErrorReason
                bindResp.ErrorDesc)
          else
            .ret () (notifyStatus { s with status := .Offline } false bindResp.ErrorType
              bindResp.ErrorReason bindResp.ErrorDesc) := by
  simp only [handleResponse, hh, hc, hd]

theorem notifyStatus_registered (s : MCUser) (online : Bool)
    (errType errReason errDesc : Option String) (h : s.statusDelegate = .registered) :
    notifyStatus s online errType errReason errDesc
      = { s with calls := s.calls ++ [Call.HandleChange online errType errReason errDesc] } := by
  simp only [notifyStatus, h]

theorem notifyStatus_nil (s : MCUser) (online : Bool)
    (errType errReason errDesc : Option String) (h : s.statusDelegate = .nil) :
    notifyStatus s online errType errReason errDesc = s := by
  simp only [notifyStatus, h]

/-- The three branches of the BIND handling when the response carries an
errorType (or result = true) and a StatusObserver is registered: result true
makes the session Online, sets lastLoginTimestamp to 0 and calls HandleChange
once with online = true; result false with errorType TOKEN_EXPIRE runs `Login`
once (one more FetchToken when a TokenProvider is registered), fails if that
`Login` fails, and otherwise calls HandleChange once with online = false; result
false with another errorType makes the session Offline and calls HandleChange
once with online = false. -/
theorem handleResponse_bind_with_observer (env : Env) (fetched : Option String)
    (s : MCUser) (v6Packet : MIMCV6Packet) (header : ClientHeader)
    (bindResp : XMMsgBindResp)
    (hh : v6Packet.header = some header) (hc : header.Cmd = some .CMD_BIND)
    (hd : env.decodeBindResp v6Packet.payload = some bindResp)
    (hs : s.statusDelegate = .registered) :
    (bindResp.Result = some true →
      handleResponse env fetched s v6Packet = .ret ()
        { s with status := .Online, lastLoginTimestamp := 0,
                 calls := s.calls ++ [Call.HandleChange true bindResp.ErrorType
                   bindResp.ErrorReason bindResp.ErrorDesc] }) ∧
    (bindResp.Result = some false → bindResp.ErrorType = some env.MIMC_TOKEN_EXPIRE →
      (Login env fetched s = .panic → handleResponse env fetched s v6Packet = .panic) ∧
      (∀ b s1, Login env fetched s = .ret b s1 →
        handleResponse env fetched s v6Packet = .ret ()
          { s1 with calls := s1.calls ++ [Call.HandleChange false bindResp.ErrorType
                      bindResp.ErrorReason bindResp.ErrorDesc] } ∧
        (s.tokenDelegate = .registered → s1.calls = s.calls ++ [Call.FetchToken]))) ∧
    (bindResp.Result = some false →
      ∀ errorType, bindResp.ErrorType = some errorType → env.MIMC_TOKEN_EXPIRE ≠ errorType →
        handleResponse env fetched s v6Packet = .ret ()
          { s with status := .Offline,
                   calls := s.calls ++ [Call.HandleChange false bindResp.ErrorType
                     bindResp.ErrorReason bindResp.ErrorDesc] }) := by
  have heq := handleResponse_bind_eq env fetched s v6Packet header bindResp hh hc hd
  refine ⟨?_, ?_, ?_⟩
  · intro hr
    rw [heq, hr]
    simp only [notifyStatus, hs]
  · intro hr he
    constructor
    · intro hl
      rw [heq, hr, he]
      simp only [if_true, hl]
    · intro b s1 hl
      have hst := (Login_status env fetched s s1 b hl).2.2
      constructor
      · rw [heq, hr, he]
        simp only [if_true, hl]
        rw [notifyStatus_registered _ _ _ _ _ (hst.trans hs)]
      · intro ht
        exact Login_calls env fetched s s1 b ht hl
  · intro hr errorType he hne
    rw [heq, hr, he]
    simp only [hne, if_false, notifyStatus, hs]

/-- The sample session with its observers registered handles a BIND response
with result = true. -/
theorem handleResponse_bind_with_observer_witness :
    handleResponse demoEnv none demoUserRegistered (frameOf .CMD_BIND [60]) = .ret ()
      { demoUserRegistered with
        status := .Online, lastLoginTimestamp := 0,
        calls := demoUserRegistered.calls ++ [Call.HandleChange true none none none] } :=
  (handleResponse_bind_with_observer demoEnv none demoUserRegistered (frameOf .CMD_BIND [60])
    { Cmd := some .CMD_BIND, Id := some "r1" }
    { Result := some true, ErrorType := none, ErrorReason := none, ErrorDesc := none }
    rfl rfl rfl rfl).1 rfl

/-- Without a StatusObserver the notification is the no-op of the nil test:
the sample session, which has none, handles a BIND response with result =
true, becomes Online, and no HandleChange call is made. -/
theorem handleResponse_bind_without_observer :
    ∃ s1, handleResponse demoEnv none demoUser (frameOf .CMD_BIND [60]) = .ret () s1 ∧
      s1.status = .Online ∧ s1.calls = [] :=
  ⟨_, rfl, rfl, rfl⟩

theorem handleResponse_bind_no_errorType (env : Env) (fetched : Option String)
    (s : MCUser) (v6Packet : MIMCV6Packet) (header : ClientHeader)
    (bindResp : XMMsgBindResp)
    (hh : v6Packet.header = some header) (hc : header.Cmd = some .CMD_BIND)
    (hd : env.decodeBindResp v6Packet.payload = some bindResp)
    (hr : bindResp.Result = some false) (he : bindResp.ErrorType = none) :
    handleResponse env fetched s v6Packet = .panic := by
  rw [handleResponse_bind_eq env fetched s v6Packet header bindResp hh hc hd, hr, he]

/-- C5: a BIND response that parses with result = false and no errorType, handled
by a session with all its observers registered, ends `handleResponse` in a
runtime failure at the dereference of line 460: the session does not become
Offline and HandleChange is not called. With an errorType other than
TOKEN_EXPIRE present, the same session becomes Offline and HandleChange is
called once with online = false. -/
theorem handleResponse_bind_without_errorType_fails :
    demoEnv.decodeBindResp [63]
        = some { Result := some false, ErrorType := none, ErrorReason := none,
                 ErrorDesc := none } ∧
      handleResponse demoEnv none demoUserRegistered (frameOf .CMD_BIND [63]) = .panic ∧
      handleResponse demoEnv none demoUserRegistered (frameOf .CMD_BIND [62]) = .ret ()
        { demoUserRegistered with
          status := .Offline,
          calls := [Call.HandleChange false (some "auth-fail") (some "denied") none] } :=
  ⟨rfl, rfl, rfl⟩

/-- C6: for every unacked table, a PACKET_ACK with packet-id `p` received while a
MessageObserver is registered makes `handleSecMsg` call HandleServerAck once
with (p, sequence, timestamp); afterwards `p` is absent from the table and every
other entry is as before, whether or not `p` was in the table. -/
theorem handleSecMsg_packet_ack (env : Env) (s : MCUser) (v6Packet : MIMCV6Packet)
    (mimcPacket : MIMCPacket) (packetAck : MIMCPacketAck) (p : String) (table : ConMap)
    (hdel : s.msgDelegate = .registered)
    (htable : s.messageToAck = some table)
    (hpkt : env.decodePacket v6Packet.payload = some mimcPacket)
    (hty : mimcPacket.Type_ = some .PACKET_ACK)
    (hack : env.decodeAck mimcPacket.Payload = some packetAck)
    (hid : packetAck.PacketId = some p) :
    ∃ s1 table1, handleSecMsg env s v6Packet = .ret () s1 ∧
      s1.calls = s.calls ++
        [Call.HandleServerAck (some p) packetAck.Sequence packetAck.Timestamp] ∧
      s1.messageToAck = some table1 ∧
      ConMap.Get table1 p = none ∧
      (∀ k, k ≠ p → ConMap.Get table1 k = ConMap.Get table k) ∧
      s1.messageToSend = s.messageToSend ∧ s1.status = s.status := by
  refine ⟨{ s with
      calls := s.calls ++ [Call.HandleServerAck (some p) packetAck.Sequence packetAck.Timestamp],
      messageToAck := some (ConMap.Pop table p).2 }, (ConMap.Pop table p).2,
      ?_, rfl, rfl, ?_, ?_, rfl, rfl⟩
  · simp only [handleSecMsg, hpkt, hty, hack, callMsgDelegate, hdel, hid, htable]
  · exact ConMap.Get_Pop_self _ _
  · intro k hk
    exact ConMap.Get_Pop_other _ _ _ hk

/-- C6 at two concrete sessions: the ack of `P-bob` arrives while `P-bob` and
`P-carol` are in the table, and while the table is empty. -/
theorem handleSecMsg_packet_ack_witness :
    (∃ s1 table1, handleSecMsg demoEnv demoUserSent (frameOf .CMD_SECMSG [1]) = .ret () s1 ∧
      s1.calls = demoUserSent.calls ++ [Call.HandleServerAck (some "P-bob") (some 7) (some 99)] ∧
      s1.messageToAck = some table1 ∧
      ConMap.Get table1 "P-bob" = none ∧
      (∀ k, k ≠ "P-bob" → ConMap.Get table1 k =
        ConMap.Get
          [("P-carol", { timestamp := 1000,
                         packet := (demoEnv.BuildP2PMessagePacket demoUser "carol" [3]).2 }),
           ("P-bob", { timestamp := 1000,
                       packet := (demoEnv.BuildP2PMessagePacket demoUser "bob" [1, 2]).2 })]
          k) ∧
      s1.messageToSend = demoUserSent.messageToSend ∧ s1.status = demoUserSent.status) ∧
    (∃ s1 table1, handleSecMsg demoEnv demoUserRegistered (frameOf .CMD_SECMSG [1])
        = .ret () s1 ∧
      s1.calls = demoUserRegistered.calls ++
        [Call.HandleServerAck (some "P-bob") (some 7) (some 99)] ∧
      s1.messageToAck = some table1 ∧
      ConMap.Get table1 "P-bob" = none ∧
      (∀ k, k ≠ "P-bob" → ConMap.Get table1 k = ConMap.Get [] k) ∧
      s1.messageToSend = demoUserRegistered.messageToSend ∧
      s1.status = demoUserRegistered.status) :=
  ⟨handleSecMsg_packet_ack demoEnv demoUserSent (frameOf .CMD_SECMSG [1])
      { PacketId := some "a1", Type_ := some .PACKET_ACK, Sequence := some 1,
        Timestamp := some 5, Payload := [10] }
      { PacketId := some "P-bob", Sequence := some 7, Timestamp := some 99 } "P-bob" _
      rfl rfl rfl rfl rfl rfl,
   handleSecMsg_packet_ack demoEnv demoUserRegistered (frameOf .CMD_SECMSG [1])
      { PacketId := some "a1", Type_ := some .PACKET_ACK, Sequence := some 1,
        Timestamp := some 5, Payload := [10] }
      { PacketId := some "P-bob", Sequence := some 7, Timestamp := some 99 } "P-bob" _
      rfl rfl rfl rfl rfl rfl⟩

theorem handleResponse_kick_nil (env : Env) (fetched : Option String) (s : MCUser)
    (v6Packet : MIMCV6Packet) (header : ClientHeader)
    (hh : v6Packet.header = some header) (hc : header.Cmd = some .CMD_KICK)
    (hs : s.statusDelegate = .nil) :
    handleResponse env fetched s v6Packet = .ret () { s with status := .Offline } := by
  simp only [handleResponse, hh, hc, notifyStatus, hs]

/-- C8: with no MessageObserver registered, a PACKET_ACK frame and a COMPOUND
frame carrying a P2P packet for this resource both end `handleSecMsg` (and
`handleResponse`, which dispatches to it) in a runtime failure: the nil test at
the top of `handleSecMsg` only logs. BIND and KICK frames with no StatusObserver
do complete and call nothing. -/
theorem handleSecMsg_without_observer_fails :
    handleSecMsg demoEnv demoUser (frameOf .CMD_SECMSG [1]) = .panic ∧
      handleSecMsg demoEnv demoUser (frameOf .CMD_SECMSG [2]) = .panic ∧
      handleResponse demoEnv none demoUser (frameOf .CMD_SECMSG [1]) = .panic ∧
      handleResponse demoEnv none demoUser (frameOf .CMD_KICK [])
        = .ret () { demoUser with status := .Offline } ∧
      handleResponse demoEnv none demoUser (frameOf .CMD_BIND [62])
        = .ret () { demoUser with status := .Offline } :=
  ⟨rfl, rfl, rfl, rfl, rfl⟩

/-- C9: a COMPOUND inner packet for which the packet list carries a resource
other than the session's is discarded by `handleSecMsg`: it returns with the
session exactly as it was, so no observer call is made, nothing is pushed to
the outbound queue, and queue, unacked table and status are unchanged. -/
theorem handleSecMsg_compound_other_resource (env : Env) (s : MCUser)
    (v6Packet : MIMCV6Packet) (mimcPacket : MIMCPacket) (packetList : MIMCPacketList)
    (resource : String)
    (hpkt : env.decodePacket v6Packet.payload = some mimcPacket)
    (hty : mimcPacket.Type_ = some .COMPOUND)
    (hlist : env.decodeList mimcPacket.Payload = some packetList)
    (hres : packetList.Resource = some resource)
    (hne : s.resource ≠ resource) :
    handleSecMsg env s v6Packet = .ret () s := by
  simp only [handleSecMsg, hpkt, hty, hlist, hres, hne, ne_eq, not_false_eq_true, if_true]

/-- C9 at a concrete session: a batch for resource `resB` reaches the session
of resource `resA`. -/
theorem handleSecMsg_compound_other_resource_witness :
    handleSecMsg demoEnv demoUserSent (frameOf .CMD_SECMSG [3]) = .ret () demoUserSent :=
  handleSecMsg_compound_other_resource demoEnv demoUserSent (frameOf .CMD_SECMSG [3])
    { PacketId := some "c2", Type_ := some .COMPOUND, Sequence := some 3,
      Timestamp := some 7, Payload := [21] }
    { Resource := some "resB",
      Packets := [some { PacketId := some "m1", Type_ := some .P2P_MESSAGE,
                         Sequence := some 3, Timestamp := some 4, Payload := [30, 1] }] }
    "resB" rfl rfl rfl rfl (by decide)

/-! ## The timer pass -/

theorem sub64_of_clock (a b : Int) (ha : isClockValue a) (hb : isClockValue b) :
    sub64 a b = a - b := by
  unfold isClockValue at ha hb
  unfold sub64 wrap64
  omega

theorem scanLoop_done (env : Env) (clock : String → Int)
    (l : List (String × MIMCTimeoutPacket)) :
    ∀ (calls : List Call) (timeoutKeys : List String),
      (∀ e ∈ l, isClockValue e.2.timestamp ∧ isClockValue (clock e.1) ∧
        (timeoutCallback env e.2.packet).isSome = true) →
      scanLoop env clock l calls timeoutKeys =
        .done (calls ++ (l.filter (expired env clock)).filterMap
                (fun e => timeoutCallback env e.2.packet))
              (timeoutKeys ++ (l.filter (expired env clock)).map Prod.fst) := by
  induction l with
  | nil =>
    intro calls timeoutKeys _
    simp [scanLoop]
  | cons e rest ih =>
    intro calls timeoutKeys hsent
    obtain ⟨key, tp⟩ := e
    have hrest : ∀ e ∈ rest, isClockValue e.2.timestamp ∧ isClockValue (clock e.1) ∧
        (timeoutCallback env e.2.packet).isSome = true :=
      fun e he => hsent e (List.mem_cons_of_mem _ he)
    obtain ⟨hts, hnow, hcb⟩ := hsent (key, tp) (List.mem_cons_self _ _)
    have hsub : sub64 (clock key) tp.timestamp = clock key - tp.timestamp :=
      sub64_of_clock _ _ hnow hts
    by_cases hlt : clock key - tp.timestamp < env.CHECK_TIMEOUT_TIMEVAL_MS
    · have hexp : expired env clock (key, tp) = false := by
        simp [expired, hlt]
      rw [List.filter_cons, hexp]
      simp only [scanLoop, hsub, hlt, if_true]
      exact ih calls timeoutKeys hrest
    · have hexp : expired env clock (key, tp) = true := by
        simp only [expired, decide_eq_true_eq]
        exact not_lt.mp hlt
      rw [List.filter_cons, hexp]
      simp only [scanLoop, hsub, hlt, if_false, if_true]
      cases hty : tp.packet.Type_ with
      | none => simp [timeoutCallback, hty] at hcb
      | some t =>
        cases t with
        | P2P_MESSAGE =>
          cases hm : env.decodeP2P tp.packet.Payload with
          | none => simp [timeoutCallback, hty, hm] at hcb
          | some m =>
            obtain ⟨sender?, payload⟩ := m
            cases sender? with
            | none => simp [timeoutCallback, hty, hm] at hcb
            | some sender =>
              simp only []
              rw [ih _ _ hrest]
              simp [List.filterMap_cons, timeoutCallback, hty, hm, List.append_assoc]
        | P2T_MESSAGE =>
          cases hm : env.decodeP2T tp.packet.Payload with
          | none => simp [timeoutCallback, hty, hm] at hcb
          | some m =>
            obtain ⟨sender?, topic?, payload⟩ := m
            cases sender? with
            | none => simp [timeoutCallback, hty, hm] at hcb
            | some sender =>
              cases topic? with
              | none => simp [timeoutCallback, hty, hm] at hcb
              | some topic =>
                simp only []
                rw [ih _ _ hrest]
                simp [List.filterMap_cons, timeoutCallback, hty, hm, List.append_assoc]
        | PACKET_ACK => simp [timeoutCallback, hty] at hcb
        | COMPOUND => simp [timeoutCallback, hty] at hcb
        | OTHER code => simp [timeoutCallback, hty] at hcb

theorem popAll_eq_filter (timeoutKeys : List String) :
    ∀ (m : ConMap), popAll m timeoutKeys = m.filter (fun e => !timeoutKeys.contains e.1) := by
  induction timeoutKeys with
  | nil =>
    intro m
    simp [popAll]
  | cons k ks ih =>
    intro m
    have hstep : popAll m (k :: ks) = popAll (m.filter (fun e => e.1 != k)) ks := by
      simp [popAll, ConMap.Pop]
    rw [hstep, ih, List.filter_filter]
    apply List.filter_congr
    intro e _
    by_cases h : e.1 = k <;> simp [h]

theorem keys_of_expired (env : Env) (clock : String → Int) (m : ConMap)
    (hnodup : (m.map Prod.fst).Nodup) (e : String × MIMCTimeoutPacket) (he : e ∈ m) :
    (((m.filter (expired env clock)).map Prod.fst).contains e.1) = expired env clock e := by
  cases hexp : expired env clock e with
  | true =>
    exact List.contains_iff_exists_mem_beq.mpr
      ⟨e.1, List.mem_map.mpr ⟨e, List.mem_filter.mpr ⟨he, hexp⟩, rfl⟩, beq_self_eq_true _⟩
  | false =>
    rw [Bool.eq_false_iff]
    intro hc
    obtain ⟨k, hk, hbeq⟩ := List.contains_iff_exists_mem_beq.mp hc
    have hkeq : e.1 = k := eq_of_beq hbeq
    obtain ⟨e1, he1, hfst⟩ := List.mem_map.mp hk
    obtain ⟨hm, hx⟩ := List.mem_filter.mp he1
    have := List.inj_on_of_nodup_map hnodup hm he (hfst.trans hkeq.symm)
    rw [this, hexp] at hx
    exact Bool.noConfusion hx

theorem lookup_filter_absent {β : Type} (p : String × β → Bool) (k : String) :
    ∀ (m : List (String × β)), k ∉ m.map Prod.fst → List.lookup k (m.filter p) = none := by
  intro m
  induction m with
  | nil => intro _; rfl
  | cons x xs ih =>
    intro hk
    have hx : k ≠ x.1 := fun h => hk (by rw [h]; exact List.mem_cons_self _ _)
    have hxs : k ∉ xs.map Prod.fst := fun h => hk (List.mem_cons_of_mem _ h)
    rw [List.filter_cons]
    split
    · obtain ⟨k1, v1⟩ := x
      rw [lookup_cons_ne k k1 v1 _ hx]
      exact ih hxs
    · exact ih hxs

theorem lookup_filter_nodup {β : Type} (p : String × β → Bool) :
    ∀ (m : List (String × β)), (m.map Prod.fst).Nodup → ∀ e ∈ m,
      List.lookup e.1 (m.filter p) = if p e = true then some e.2 else none := by
  intro m
  induction m with
  | nil =>
    intro _ e he
    exact absurd he (List.not_mem_nil _)
  | cons x xs ih =>
    intro hnd e he
    obtain ⟨hx, hnd1⟩ := List.nodup_cons.mp hnd
    obtain ⟨k1, v1⟩ := x
    rcases List.mem_cons.mp he with heq | hmem
    · subst heq
      rw [List.filter_cons]
      split
      · rw [lookup_cons_self]
      · exact lookup_filter_absent p k1 xs hx
    · have hne : e.1 ≠ k1 := by
        intro h
        exact hx (by rw [← h]; exact List.mem_map.mpr ⟨e, hmem, rfl⟩)
      rw [List.filter_cons]
      split
      · rw [lookup_cons_ne e.1 k1 v1 _ hne]
        exact ih hnd1 e hmem
      · exact ih hnd1 e hmem

theorem filterMap_length_of_isSome {α β : Type} (f : α → Option β) :
    ∀ (l : List α), (∀ a ∈ l, (f a).isSome = true) → (l.filterMap f).length = l.length := by
  intro l
  induction l with
  | nil => intro _; rfl
  | cons a as ih =>
    intro h
    have ha := h a (List.mem_cons_self _ _)
    cases hfa : f a with
    | none => rw [hfa] at ha; exact Bool.noConfusion ha
    | some b =>
      rw [List.filterMap_cons, hfa]
      simp only [List.length_cons]
      rw [ih (fun x hx => h x (List.mem_cons_of_mem _ hx))]

/-- C7: for every unacked table as the session's own sends leave it, and every
clock, one pass of `scanAndCallback` with a MessageObserver registered returns,
emits exactly one send-timeout callback per record whose age is
CHECK_TIMEOUT_INTERVAL or more (HandleSendMessageTimeout for P2P,
HandleSendGroupMessageTimeout for P2T, as `timeoutCallback` has it), and removes
exactly those records: afterwards their packet-ids are absent from the table,
and every younger record is in place, with no callback. -/
theorem scanAndCallback_times_out_expired (env : Env) (clock : String → Int) (s : MCUser)
    (table : ConMap)
    (hdel : s.msgDelegate = .registered) (htable : s.messageToAck = some table)
    (hsent : SentTable env table) (hclock : ∀ e ∈ table, isClockValue (clock e.1)) :
    ∃ s1 table1, scanAndCallback env clock s = .ret () s1 ∧
      s1.calls = s.calls ++ (table.filter (expired env clock)).filterMap
        (fun e => timeoutCallback env e.2.packet) ∧
      ((table.filter (expired env clock)).filterMap
        (fun e => timeoutCallback env e.2.packet)).length
          = (table.filter (expired env clock)).length ∧
      s1.messageToAck = some table1 ∧
      table1 = table.filter (fun e => !expired env clock e) ∧
      (∀ e ∈ table,
        (expired env clock e = true → ConMap.Get table1 e.1 = none) ∧
        (expired env clock e = false → ConMap.Get table1 e.1 = some e.2)) ∧
      s1.messageToSend = s.messageToSend ∧ s1.status = s.status := by
  obtain ⟨hnodup, hrec⟩ := hsent
  have hall : ∀ e ∈ table, isClockValue e.2.timestamp ∧ isClockValue (clock e.1) ∧
      (timeoutCallback env e.2.packet).isSome = true :=
    fun e he => ⟨(hrec e he).1, hclock e he, (hrec e he).2⟩
  have hkeep : popAll table ((table.filter (expired env clock)).map Prod.fst)
      = table.filter (fun e => !expired env clock e) := by
    rw [popAll_eq_filter]
    apply List.filter_congr
    intro e he
    rw [keys_of_expired env clock table hnodup e he]
  refine ⟨{ s with
      calls := s.calls ++ (table.filter (expired env clock)).filterMap
        (fun e => timeoutCallback env e.2.packet),
      messageToAck := some (table.filter (fun e => !expired env clock e)) },
    table.filter (fun e => !expired env clock e), ?_, rfl, ?_, rfl, rfl, ?_, rfl, rfl⟩
  · simp only [scanAndCallback, hdel, htable, ConMap.KVs,
      scanLoop_done env clock table _ _ hall, List.nil_append, hkeep]
  · apply filterMap_length_of_isSome
    intro e he
    exact (hrec e (List.mem_filter.mp he).1).2
  · intro e he
    have hl := lookup_filter_nodup (fun e => !expired env clock e) table hnodup e he
    constructor
    · intro hexp
      unfold ConMap.Get
      rw [hl]
      simp [hexp]
    · intro hexp
      unfold ConMap.Get
      rw [hl]
      simp [hexp]

/-- C7 at a concrete pass: at clock 20000 and a timeout of 10000 the records
sent at 1000 (P2P) and 2000 (P2T) time out, one callback each, and the record
sent at 15000 stays. -/
theorem scanAndCallback_times_out_expired_witness :
    ∃ s1 table1, scanAndCallback demoEnv (fun _ => 20000) demoUserWaiting = .ret () s1 ∧
      s1.calls =
        [Call.HandleSendMessageTimeout
           { packetId := some "P-carol", fromAccount := some "alice",
             fromResource := some "ra", sequence := none, timestamp := none,
             payload := [3] },
         Call.HandleSendGroupMessageTimeout
           { packetId := some "T-5", fromAccount := some "alice",
             fromResource := some "ra", sequence := none, timestamp := none,
             topicId := some 9, payload := [4] }] ∧
      s1.messageToAck = some table1 ∧
      table1 =
        [("P-bob", { timestamp := 15000,
                     packet := (demoEnv.BuildP2PMessagePacket demoUser "bob" [1, 2]).2 })] ∧
      ConMap.Get table1 "P-carol" = none ∧ ConMap.Get table1 "T-5" = none := by
  obtain ⟨s1, table1, hrun, hcalls, _, htab, hfil, _, _, _⟩ :=
    scanAndCallback_times_out_expired demoEnv (fun _ => 20000) demoUserWaiting
      [("P-carol", { timestamp := 1000,
                     packet := (demoEnv.BuildP2PMessagePacket demoUser "carol" [3]).2 }),
       ("T-5", { timestamp := 2000,
                 packet := (demoEnv.BuildP2TMessagePacket demoUser 5 [4]).2 }),
       ("P-bob", { timestamp := 15000,
                   packet := (demoEnv.BuildP2PMessagePacket demoUser "bob" [1, 2]).2 })]
      rfl rfl
      ⟨by decide, by
        intro e he
        simp only [List.mem_cons, List.mem_singleton, List.not_mem_nil, or_false] at he
        rcases he with rfl | rfl | rfl <;> exact ⟨⟨by decide, by decide⟩, rfl⟩⟩
      (fun _ _ => (show isClockValue 20000 from ⟨by decide, by decide⟩))
  subst hfil
  exact ⟨s1, _, hrun, hcalls, htab, rfl, rfl, rfl⟩

theorem SentTable_nil (env : Env) : SentTable env [] :=
  ⟨List.nodup_nil, fun _ he => absurd he (List.not_mem_nil _)⟩

theorem SentTable_Push (env : Env) (table : ConMap) (k : String) (v : MIMCTimeoutPacket)
    (hsent : SentTable env table) (hts : isClockValue v.timestamp)
    (hcb : (timeoutCallback env v.packet).isSome = true) :
    SentTable env (ConMap.Push table k v) := by
  obtain ⟨hnodup, hrec⟩ := hsent
  unfold ConMap.Push
  constructor
  · rw [List.map_cons, List.nodup_cons]
    constructor
    · intro hmem
      obtain ⟨e, he, hk⟩ := List.mem_map.mp hmem
      have hne := (List.mem_filter.mp he).2
      simp only [bne_iff_ne, ne_eq] at hne
      exact hne hk
    · exact hnodup.sublist ((List.filter_sublist _).map Prod.fst)
  · intro e he
    rcases List.mem_cons.mp he with heq | hmem
    · subst heq
      exact ⟨hts, hcb⟩
    · exact hrec e (List.mem_filter.mp hmem).1

theorem SentTable_Pop (env : Env) (table : ConMap) (k : String)
    (hsent : SentTable env table) : SentTable env (ConMap.Pop table k).2 := by
  obtain ⟨hnodup, hrec⟩ := hsent
  unfold ConMap.Pop
  exact ⟨hnodup.sublist ((List.filter_sublist _).map Prod.fst),
    fun e he => hrec e (List.mem_filter.mp he).1⟩

/-- The unacked table stays as the session's own sends leave it: `SendMessage`
and `SendGroupMessage` at a clock value, with builders that round-trip, store
a record that `scanAndCallback` can time out. -/
theorem SendMessage_keeps_SentTable (env : Env) (now : Int) (s s1 : MCUser)
    (toAppAccount : String) (topicId : Option Int) (msgByte : Bytes) (p : String)
    (table : ConMap) (hround : BuildersRoundTrip env) (hnow : isClockValue now)
    (htable : s.messageToAck = some table) (hsent : SentTable env table)
    (hrun : SendMessage env now s toAppAccount msgByte = .ret p s1 ∨
      SendGroupMessage env now s topicId msgByte = .ret p s1) :
    ∃ table1, s1.messageToAck = some table1 ∧ SentTable env table1 := by
  rcases hrun with hrun | hrun
  · unfold SendMessage at hrun
    split at hrun
    · injection hrun with _ hs
      subst hs
      exact ⟨table, htable, hsent⟩
    · simp only [htable] at hrun
      split at hrun
      · exact Run.noConfusion hrun
      · split at hrun
        · exact Run.noConfusion hrun
        · injection hrun with _ hs
          subst hs
          exact ⟨_, rfl, SentTable_Push env table _ _ hsent hnow (hround.1 _ _ _)⟩
  · unfold SendGroupMessage at hrun
    split at hrun
    · injection hrun with _ hs
      subst hs
      exact ⟨table, htable, hsent⟩
    · split at hrun
      · exact Run.noConfusion hrun
      · simp only [htable] at hrun
        split at hrun
        · exact Run.noConfusion hrun
        · split at hrun
          · exact Run.noConfusion hrun
          · injection hrun with _ hs
            subst hs
            exact ⟨_, rfl, SentTable_Push env table _ _ hsent hnow (hround.2 _ _ _)⟩

/-- A table that the session's own sends do not produce: two expired P2P
records, the second of which does not deserialize. The pass emits the timeout
callback for the first and then leaves `scanAndCallback` at the `return` of the
failed `Deserialize`: nothing is removed and the next pass emits the callback
again. -/
theorem scanAndCallback_returns_before_removal :
    ∃ s1 s2, scanAndCallback demoEnv (fun _ => 20000) demoUserStuck = .ret () s1 ∧
      s1.calls = [Call.HandleSendMessageTimeout demoTimeoutP1] ∧
      s1.messageToAck = demoUserStuck.messageToAck ∧
      scanAndCallback demoEnv (fun _ => 20200) s1 = .ret () s2 ∧
      s2.calls = [Call.HandleSendMessageTimeout demoTimeoutP1,
                  Call.HandleSendMessageTimeout demoTimeoutP1] :=
  ⟨_, _, rfl, rfl, rfl, rfl, rfl⟩

/-! ## Resource persistence -/

theorem writeAt0_fits (old data : String) (h : old.length ≤ data.length) :
    writeAt0 old data = data := by
  unfold writeAt0
  have hdrop : old.toList.drop data.length = [] := List.drop_eq_nil_of_le h
  rw [hdrop]
  exact String.append_empty data

theorem SynchronizeWithFile_present (json : JsonKV) (key value old data : String)
    (kvs : KVMap) (hlen : data.length ≠ 0) (hparse : json.unmarshal data = some kvs)
    (hkey : kvs.lookup key = some (.str old)) :
    SynchronizeWithFile json key value (some data) = .ret (some old) (some data) := by
  simp only [SynchronizeWithFile, hlen, if_false, hparse, hkey]

theorem SynchronizeWithFile_absent (json : JsonKV) (key value data : String)
    (kvs : KVMap) (hlen : data.length ≠ 0) (hparse : json.unmarshal data = some kvs)
    (hkey : kvs.lookup key = none) :
    SynchronizeWithFile json key value (some data) = .ret (some value)
      (some (writeAt0 data (json.marshal ((key, .str value) :: kvs)))) := by
  simp only [SynchronizeWithFile, hlen, if_false, hparse, hkey]

/-- When the new text is at least as long as the old content, as it is for a
file this function wrote itself, nothing of the old content is left: the file
is the marshalled map with the value under the key, and a second
synchronization with another value returns the first value and leaves the
file alone. -/
theorem SynchronizeWithFile_stable_when_fits (json : JsonKV) (key value value2 data : String)
    (kvs : KVMap) (hlen : data.length ≠ 0) (hparse : json.unmarshal data = some kvs)
    (hkey : kvs.lookup key = none)
    (hfits : data.length ≤ (json.marshal ((key, .str value) :: kvs)).length)
    (hround : json.unmarshal (json.marshal ((key, .str value) :: kvs))
      = some ((key, .str value) :: kvs)) :
    SynchronizeWithFile json key value (some data)
        = .ret (some value) (some (json.marshal ((key, .str value) :: kvs))) ∧
      SynchronizeWithFile json key value2 (some (json.marshal ((key, .str value) :: kvs)))
        = .ret (some value) (some (json.marshal ((key, .str value) :: kvs))) := by
  constructor
  · rw [SynchronizeWithFile_absent json key value data kvs hlen hparse hkey,
      writeAt0_fits data _ hfits]
  · apply SynchronizeWithFile_present json key value2 value _ _ _ hround
    · exact lookup_cons_self key (JSON.str value) kvs
    · intro h0
      rw [h0] at hfits
      exact hlen (Nat.le_zero.mp hfits)

theorem synchronizeResource_adopts (json : JsonKV) (s s1 : MCUser)
    (file file1 : Option String) (h : synchronizeResource json s file = some (s1, file1)) :
    SynchronizeWithFile json (toString s.appId ++ "_" ++ s.appAccount) s.resource file
        = .ret (some s1.resource) file1 ∧
      s1 = { s with resource := s1.resource } := by
  unfold synchronizeResource at h
  simp only at h
  split at h
  · exact Option.noConfusion h
  · exact Option.noConfusion h
  · rename_i resource file2 heq
    injection h with h1
    injection h1 with hs hf
    subst hs hf
    exact ⟨heq, rfl⟩

/-- C10: the file holds valid JSON, the resource of another account, with 30
blanks after the opening brace. The first synchronization for `7_alice` with
the fresh value `resA` returns `resA` and writes the 33 bytes of the new map
over the start of the 46 bytes of the old content, whose last 13 bytes stay;
the second synchronization, with the fresh value `resZ`, cannot parse that
file and panics instead of returning `resA`. -/
theorem SynchronizeWithFile_leaves_old_tail :
    paddedFile.length = 46 ∧
      demoJson.marshal [("7_alice", .str "resA"), ("8_bob", .str "resB")]
        = "\x7b\"7_alice\":\"resA\",\"8_bob\":\"resB\"\x7d" ∧
      SynchronizeWithFile demoJson "7_alice" "resA" (some paddedFile)
        = .ret (some "resA")
            (some "\x7b\"7_alice\":\"resA\",\"8_bob\":\"resB\"\x7d_bob\":\"resB\"\x7d") ∧
      SynchronizeWithFile demoJson "7_alice" "resZ"
          (some "\x7b\"7_alice\":\"resA\",\"8_bob\":\"resB\"\x7d_bob\":\"resB\"\x7d")
        = .panic :=
  ⟨rfl, rfl, rfl, rfl⟩

/-! ## The Online invariant -/

theorem callMsgDelegate_preserves (s s1 : MCUser) (c : Call) (u : Unit)
    (h : callMsgDelegate s c = .ret u s1) :
    s1.status = s.status ∧ s1.securityKey = s.securityKey ∧ s1.conn = s.conn := by
  unfold callMsgDelegate at h
  split at h
  · exact Run.noConfusion h
  · injection h with _ hs
    subst hs
    exact ⟨rfl, rfl, rfl⟩

theorem callIf_preserves (b : Prop) [Decidable b] (s s1 : MCUser) (c : Call) (u : Unit)
    (h : (if b then callMsgDelegate s c else Run.ret () s) = .ret u s1) :
    s1.status = s.status ∧ s1.securityKey = s.securityKey ∧ s1.conn = s.conn := by
  split at h
  · exact callMsgDelegate_preserves _ _ _ _ h
  · injection h with _ hs
    subst hs
    exact ⟨rfl, rfl, rfl⟩

theorem dispatchBatches_preserves (s s1 : MCUser) (p2pMsgList : List P2PMessage)
    (p2tMsgList : List P2TMessage) (u : Unit)
    (h : dispatchBatches s p2pMsgList p2tMsgList = .ret u s1) :
    s1.status = s.status ∧ s1.securityKey = s.securityKey ∧ s1.conn = s.conn := by
  unfold dispatchBatches at h
  simp only at h
  split at h
  · exact Run.noConfusion h
  · rename_i heq
    obtain ⟨a1, a2, a3⟩ := callIf_preserves _ _ _ _ _ heq
    obtain ⟨b1, b2, b3⟩ := callIf_preserves _ _ _ _ _ h
    exact ⟨b1.trans a1, b2.trans a2, b3.trans a3⟩

theorem handleSecMsg_preserves (env : Env) (s s1 : MCUser) (v6Packet : MIMCV6Packet)
    (u : Unit) (h : handleSecMsg env s v6Packet = .ret u s1) :
    s1.status = s.status ∧ s1.securityKey = s.securityKey ∧ s1.conn = s.conn := by
  unfold handleSecMsg at h
  repeat' split at h
  all_goals first
    | exact Run.noConfusion h
    | (injection h with _ hs; subst hs; exact ⟨rfl, rfl, rfl⟩)
    | (simp only at h
       obtain ⟨a1, a2, a3⟩ := dispatchBatches_preserves _ _ _ _ _ h
       exact ⟨a1, a2, a3⟩)
    | (obtain ⟨a1, a2, a3⟩ :=
         callMsgDelegate_preserves _ _ _ _ ‹callMsgDelegate _ _ = Run.ret _ _›
       injection h with _ hs
       subst hs
       exact ⟨a1, a2, a3⟩)

theorem notifyStatus_preserves (s : MCUser) (online : Bool)
    (errType errReason errDesc : Option String) :
    (notifyStatus s online errType errReason errDesc).status = s.status ∧
      (notifyStatus s online errType errReason errDesc).securityKey = s.securityKey ∧
      (notifyStatus s online errType errReason errDesc).conn = s.conn := by
  unfold notifyStatus
  split <;> exact ⟨rfl, rfl, rfl⟩

theorem OnlineInvariant_of_offline (s : MCUser) (h : s.status = .Offline) :
    OnlineInvariant s := by
  intro hon
  rw [h] at hon
  exact UserStatus.noConfusion hon

theorem OnlineInvariant_of_same (s s1 : MCUser) (hinv : OnlineInvariant s)
    (h : s1.status = s.status ∧ s1.securityKey = s.securityKey ∧ s1.conn = s.conn) :
    OnlineInvariant s1 := by
  intro hon
  rw [h.1] at hon
  rw [h.2.1, h.2.2]
  exact hinv hon

theorem Login_key (env : Env) (fetched : Option String) (s s1 : MCUser) (b : Bool)
    (hr : Login env fetched s = .ret b s1) :
    (s1.securityKey = s.securityKey ∨ bundleKey env fetched = some s1.securityKey) ∧
      (b = true → bundleKey env fetched = some s1.securityKey) := by
  unfold Login at hr
  repeat' split at hr
  all_goals first
    | exact Run.noConfusion hr
    | (injection hr with hb hs
       subst hb hs
       exact ⟨Or.inl rfl, fun h => Bool.noConfusion h⟩)
    | (injection hr with hb hs
       subst hb hs
       refine ⟨Or.inr ?_, fun _ => ?_⟩ <;> simp [bundleKey, *])

theorem Login_key_nonempty (env : Env) (fetched : Option String) (s s1 : MCUser) (b : Bool)
    (hkey : bundleKey env fetched ≠ some "") (hr : Login env fetched s = .ret b s1) :
    (s.securityKey ≠ "" → s1.securityKey ≠ "") ∧ (b = true → s1.securityKey ≠ "") := by
  obtain ⟨h1, h2⟩ := Login_key env fetched s s1 b hr
  have hstored : bundleKey env fetched = some s1.securityKey → s1.securityKey ≠ "" := by
    intro hb he
    rw [he] at hb
    exact hkey hb
  constructor
  · intro hs
    rcases h1 with h | h
    · rw [h]
      exact hs
    · exact hstored h
  · intro hb
    exact hstored (h2 hb)

theorem HistoryInvariant_of_same (s s1 : MCUser) (h : History)
    (hinv : HistoryInvariant s h)
    (hsame : s1.status = s.status ∧ s1.securityKey = s.securityKey ∧ s1.conn = s.conn) :
    HistoryInvariant s1 h := by
  obtain ⟨h1, h2, h3⟩ := hinv
  refine ⟨?_, ?_, OnlineInvariant_of_same s s1 h3 hsame⟩
  · rw [hsame.2.1]
    exact h1
  · rw [hsame.2.2]
    exact h2

theorem HistoryInvariant_after_Login (env : Env) (fetched : Option String) (s s1 : MCUser)
    (h : History) (b : Bool) (hinv : HistoryInvariant s h)
    (hkey : bundleKey env fetched ≠ some "") (hr : Login env fetched s = .ret b s1) :
    HistoryInvariant s1
      { loggedIn := b || h.loggedIn, handshaked := h.handshaked } := by
  obtain ⟨h1, h2, h3⟩ := hinv
  obtain ⟨hst, hconn, _⟩ := Login_status env fetched s s1 b hr
  obtain ⟨k1, k2⟩ := Login_key_nonempty env fetched s s1 b hkey hr
  refine ⟨?_, ?_, ?_⟩
  · cases b with
    | true => exact fun _ => k2 rfl
    | false => exact fun hl => k1 (h1 hl)
  · rw [hconn]
    exact h2
  · intro hon
    rw [hst] at hon
    rw [hconn]
    exact ⟨k1 (h3 hon).1, (h3 hon).2⟩

theorem handleResponse_keeps (env : Env) (fetched : Option String) (s s1 : MCUser)
    (h : History) (v6Packet : MIMCV6Packet) (u : Unit) (hinv : HistoryInvariant s h)
    (hord : Event.inOrder env s h (.frame fetched v6Packet))
    (hr : handleResponse env fetched s v6Packet = .ret u s1) :
    HistoryInvariant s1 (h.after env s (.frame fetched v6Packet)) := by
  obtain ⟨hkey, hord⟩ := hord
  unfold handleResponse at hr
  cases hh : v6Packet.header with
  | none =>
    rw [hh] at hr
    exact Run.noConfusion hr
  | some header =>
    cases hc : header.Cmd with
    | none =>
      simp only [hh, hc] at hr
      exact Run.noConfusion hr
    | some cmd =>
      simp only [hh, hc, Option.bind] at hord
      simp only [hh, hc] at hr
      cases cmd with
      | CMD_SECMSG =>
        have hafter : h.after env s (.frame fetched v6Packet) = h := by
          simp only [History.after, Event.loginRun, hh, hc, Option.bind]
        rw [hafter]
        exact HistoryInvariant_of_same s s1 h hinv (handleSecMsg_preserves _ _ _ _ _ hr)
      | CMD_CONN =>
        simp only at hr hord
        cases hconn : s.conn with
        | none =>
          simp only [hconn] at hr
          exact Run.noConfusion hr
        | some conn =>
          cases hdec : env.decodeConnResp v6Packet.payload with
          | none =>
            simp only [hconn, hdec] at hr
            injection hr with _ hs
            subst hs
            have hafter : h.after env s (.frame fetched v6Packet)
                = { loggedIn := h.loggedIn, handshaked := false } := by
              simp only [History.after, Event.loginRun, hh, hc, Option.bind, hdec,
                Option.isSome]
            rw [hafter]
            exact ⟨hinv.1, fun hf => Bool.noConfusion hf,
              OnlineInvariant_of_offline _ (hord hdec)⟩
          | some connResp =>
            cases hch : connResp.Challenge with
            | none =>
              simp only [hconn, hdec, hch] at hr
              exact Run.noConfusion hr
            | some challenge =>
              simp only [hconn, hdec, hch] at hr
              injection hr with _ hs
              subst hs
              have hafter : h.after env s (.frame fetched v6Packet)
                  = { loggedIn := h.loggedIn, handshaked := true } := by
                simp only [History.after, Event.loginRun, hh, hc, Option.bind, hdec,
                  Option.isSome]
              rw [hafter]
              exact ⟨hinv.1, fun _ => rfl, fun hon => ⟨(hinv.2.2 hon).1, rfl⟩⟩
      | CMD_BIND =>
        simp only at hr hord
        cases hdec : env.decodeBindResp v6Packet.payload with
        | none =>
          simp only [hdec] at hr
          injection hr with _ hs
          subst hs
          have hafter : h.after env s (.frame fetched v6Packet) = h := by
            simp only [History.after, Event.loginRun, hh, hc, Option.bind, hdec]
          rw [hafter]
          exact hinv
        | some bindResp =>
          simp only [hdec] at hr
          cases hres : bindResp.Result with
          | none =>
            simp only [hres] at hr
            exact Run.noConfusion hr
          | some result =>
            cases result with
            | true =>
              simp only [hres] at hr
              injection hr with _ hs
              subst hs
              have hafter : h.after env s (.frame fetched v6Packet) = h := by
                simp [History.after, Event.loginRun, hh, hc, hdec, hres]
              rw [hafter]
              obtain ⟨hlog, hhs⟩ := hord bindResp hdec hres
              obtain ⟨_, a2, a3⟩ := notifyStatus_preserves
                { s with status := .Online, lastLoginTimestamp := 0 } true
                bindResp.ErrorType bindResp.ErrorReason bindResp.ErrorDesc
              refine ⟨?_, ?_, ?_⟩
              · rw [a2]
                exact hinv.1
              · rw [a3]
                exact hinv.2.1
              · intro _
                rw [a2, a3]
                exact ⟨hinv.1 hlog, hinv.2.1 hhs⟩
            | false =>
              simp only [hres] at hr
              cases hty : bindResp.ErrorType with
              | none =>
                simp only [hty] at hr
                exact Run.noConfusion hr
              | some errorType =>
                simp only [hty] at hr
                by_cases het : env.MIMC_TOKEN_EXPIRE = errorType
                · simp only [het, if_true] at hr
                  cases hl : Login env fetched s with
                  | panic =>
                    simp only [hl] at hr
                    exact Run.noConfusion hr
                  | ret b s2 =>
                    simp only [hl] at hr
                    injection hr with _ hs
                    subst hs
                    have hafter : h.after env s (.frame fetched v6Packet)
                        = { loggedIn := b || h.loggedIn, handshaked := h.handshaked } := by
                      simp only [History.after, Event.loginRun, hh, hc, Option.bind, hdec,
                        hres, hty, het, and_self, if_true, hl]
                      cases b <;> rfl
                    rw [hafter]
                    have hrun : Event.loginRun env s (.frame fetched v6Packet)
                        = some (Login env fetched s) := by
                      simp only [Event.loginRun, hh, hc, Option.bind, hdec, hres, hty, het,
                        and_self, if_true]
                    have hkey1 : bundleKey env fetched ≠ some "" := by
                      apply hkey
                      rw [hrun]
                      exact fun hx => Option.noConfusion hx
                    exact HistoryInvariant_of_same s2 _ _
                      (HistoryInvariant_after_Login env fetched s s2 h b hinv hkey1 hl)
                      (notifyStatus_preserves s2 false _ _ _)
                · simp only [het, if_false] at hr
                  injection hr with _ hs
                  subst hs
                  have hafter : h.after env s (.frame fetched v6Packet) = h := by
                    have hne : ¬ (some errorType = some env.MIMC_TOKEN_EXPIRE) :=
                      fun hx => het (Option.some.inj hx).symm
                    simp only [History.after, Event.loginRun, hh, hc, Option.bind, hdec,
                      hres, hty, hne, and_false, if_false]
                  rw [hafter]
                  obtain ⟨a1, a2, a3⟩ := notifyStatus_preserves
                    { s with status := .Offline } false
                    (some errorType) bindResp.ErrorReason bindResp.ErrorDesc
                  refine ⟨?_, ?_, OnlineInvariant_of_offline _ (a1.trans rfl)⟩
                  · rw [a2]
                    exact hinv.1
                  · rw [a3]
                    exact hinv.2.1
      | CMD_KICK =>
        simp only at hr
        injection hr with _ hs
        subst hs
        have hafter : h.after env s (.frame fetched v6Packet) = h := by
          simp only [History.after, Event.loginRun, hh, hc, Option.bind]
        rw [hafter]
        obtain ⟨a1, a2, a3⟩ := notifyStatus_preserves
          { s with status := .Offline } false (some "kick") (some "kick") (some "kick")
        refine ⟨?_, ?_, OnlineInvariant_of_offline _ (a1.trans rfl)⟩
        · rw [a2]
          exact hinv.1
        · rw [a3]
          exact hinv.2.1
      | CMD_PING =>
        simp only at hr
        injection hr with _ hs
        subst hs
        have hafter : h.after env s (.frame fetched v6Packet) = h := by
          simp only [History.after, Event.loginRun, hh, hc, Option.bind]
        rw [hafter]
        exact hinv
      | CMD_UNBIND =>
        simp only at hr
        injection hr with _ hs
        subst hs
        have hafter : h.after env s (.frame fetched v6Packet) = h := by
          simp only [History.after, Event.loginRun, hh, hc, Option.bind]
        rw [hafter]
        exact hinv

theorem step_keeps (env : Env) (s s1 : MCUser) (h : History) (e : Event)
    (hinv : HistoryInvariant s h) (hord : Event.inOrder env s h e)
    (hstep : step env s e = some s1) : HistoryInvariant s1 (h.after env s e) := by
  cases e with
  | login fetched =>
    simp only [step] at hstep
    cases hl : Login env fetched s with
    | panic =>
      simp only [hl] at hstep
      exact Option.noConfusion hstep
    | ret b s2 =>
      simp only [hl] at hstep
      injection hstep with hs
      subst hs
      have hafter : h.after env s (.login fetched)
          = { loggedIn := b || h.loggedIn, handshaked := h.handshaked } := by
        simp only [History.after, Event.loginRun, hl]
        cases b <;> rfl
      rw [hafter]
      exact HistoryInvariant_after_Login env fetched s s2 h b hinv hord hl
  | frame fetched v6Packet =>
    simp only [step] at hstep
    cases hl : handleResponse env fetched s v6Packet with
    | panic =>
      simp only [hl] at hstep
      exact Option.noConfusion hstep
    | ret u s2 =>
      simp only [hl] at hstep
      injection hstep with hs
      subst hs
      exact handleResponse_keeps env fetched s s2 h v6Packet u hinv hord hl
  | reset =>
    simp only [step] at hstep
    cases hconn : s.conn with
    | none =>
      simp only [hconn] at hstep
      exact Option.noConfusion hstep
    | some conn =>
      simp only [hconn] at hstep
      injection hstep with hs
      subst hs
      exact ⟨hinv.1, fun hf => Bool.noConfusion hf, OnlineInvariant_of_offline _ hord⟩

theorem runEvents_keeps (env : Env) (es : List Event) :
    ∀ (s s1 : MCUser) (h : History), HistoryInvariant s h → InOrder env s h es →
      runEvents env s es = some s1 → OnlineInvariant s1 := by
  induction es with
  | nil =>
    intro s s1 h hinv _ hrun
    simp only [runEvents] at hrun
    injection hrun with hs
    subst hs
    exact hinv.2.2
  | cons e rest ih =>
    intro s s1 h hinv hord hrun
    simp only [runEvents] at hrun
    simp only [InOrder] at hord
    cases hst : step env s e with
    | none =>
      simp only [hst] at hrun
      exact Option.noConfusion hrun
    | some s2 =>
      simp only [hst] at hrun hord
      exact ih s2 s1 (h.after env s e) (step_keeps env s s2 h e hinv hord.1 hst) hord.2 hrun

theorem InitAndSetup_start (json : JsonKV) (randomStr : String)
    (file file1 : Option String) (u s0 : MCUser)
    (h : InitAndSetup json randomStr file u = some (s0, file1)) :
    s0.status = .Offline ∧ s0.securityKey = "" ∧ s0.conn = some NewConn ∧
      s0.messageToSend = some [] ∧ s0.messageToAck = some [] := by
  unfold InitAndSetup at h
  obtain ⟨_, hs⟩ := synchronizeResource_adopts json _ s0 file file1 h
  rw [hs]
  exact ⟨rfl, rfl, rfl, rfl, rfl⟩

/-- C4, as the code has it: take a session after `InitAndSetup` and any sequence
of Login calls, frames handled by `handleResponse` and connection resets that
comes in the order of the protocol: no token bundle that a `Login` call
fetches carries an empty `miUserSecurityKey`; a BIND response with result =
true is handled only after a `Login` that returned true and after a CONN
response handled on the current connection; the connection is reset, directly
or by a CONN response that does not parse, only while the session is Offline.
In every state so reached, Online implies a non-empty security key and a
HandshakeConnected connection. -/
theorem online_invariant_in_protocol_order (env : Env) (json : JsonKV)
    (randomStr : String) (file file1 : Option String) (u s0 s : MCUser)
    (es : List Event)
    (hinit : InitAndSetup json randomStr file u = some (s0, file1))
    (hord : InOrder env s0 { loggedIn := false, handshaked := false } es)
    (hrun : runEvents env s0 es = some s) : OnlineInvariant s :=
  runEvents_keeps env es s0 s { loggedIn := false, handshaked := false }
    ⟨fun h => Bool.noConfusion h, fun h => Bool.noConfusion h,
      OnlineInvariant_of_offline s0
        (InitAndSetup_start json randomStr file file1 u s0 hinit).1⟩
    hord hrun

/-- C4 at a concrete run: login with a complete bundle, handshake, bind; the
session ends Online with security key `k3y` on a HandshakeConnected connection. -/
theorem online_invariant_in_protocol_order_witness :
    ∃ s, runEvents demoEnv demoUserRegistered demoEvents = some s ∧
      s.status = .Online ∧ s.securityKey = "k3y" ∧
      s.conn.map (fun c => c.status) = some .HANDSHAKE_CONNECTED ∧ OnlineInvariant s :=
  ⟨_, rfl, rfl, rfl, rfl,
    online_invariant_in_protocol_order demoEnv demoJson "resA" (some "")
      (some "\x7b\"7_alice\":\"resA\"\x7d")
      (RegisterMessageDelegate (RegisterStatusDelegate (RegisterTokenDelegate (New 7 "alice"))))
      demoUserRegistered _ demoEvents rfl
      (by
        refine And.intro ?_ (And.intro (And.intro ?_ ?_) (And.intro (And.intro ?_ ?_) trivial))
        · show bundleKey demoEnv (some goodBundle) ≠ some ""
          decide
        · exact fun hrun => absurd rfl hrun
        · exact fun _ => rfl
        · exact fun hrun => absurd rfl hrun
        · exact fun _ _ _ => ⟨rfl, rfl⟩)
      rfl⟩

/-- C4 as stated fails, in three ways. Right after `InitAndSetup`, a BIND
response with result = true makes the session Online while the security key is
empty and the connection is not connected: `handleResponse` checks neither.
After a `Login` with a bundle whose `miUserSecurityKey` is empty, a handshake
and a bind, the session is Online with an empty security key. After login,
handshake and bind in order, a connection reset leaves the session Online on
a connection that is not connected. -/
theorem online_invariant_fails :
    (∃ s0 file1 s,
      InitAndSetup demoJson "resA" (some "") (New 7 "alice") = some (s0, file1) ∧
      runEvents demoEnv s0 [.frame none (frameOf .CMD_BIND [60])] = some s ∧
      s.status = .Online ∧ s.securityKey = "" ∧
      s.conn.map (fun c => c.status) = some .NOT_CONNECTED ∧ ¬ OnlineInvariant s) ∧
    (∃ s, runEvents demoEnv demoUserRegistered
        [.login (some bundleEmptyKey), .frame none (frameOf .CMD_CONN [50]),
         .frame none (frameOf .CMD_BIND [60])] = some s ∧
      s.status = .Online ∧ s.securityKey = "" ∧
      s.conn.map (fun c => c.status) = some .HANDSHAKE_CONNECTED ∧ ¬ OnlineInvariant s) ∧
    (∃ s, runEvents demoEnv demoUserRegistered (demoEvents ++ [.reset]) = some s ∧
      s.status = .Online ∧ s.securityKey = "k3y" ∧
      s.conn.map (fun c => c.status) = some .NOT_CONNECTED ∧ ¬ OnlineInvariant s) :=
  ⟨⟨_, _, _, rfl, rfl, rfl, rfl, rfl, fun h => (h rfl).1 rfl⟩,
    ⟨_, rfl, rfl, rfl, rfl, fun h => (h rfl).1 rfl⟩,
    ⟨_, rfl, rfl, rfl, rfl, fun h => ConnStatus.noConfusion (Option.some.inj (h rfl).2)⟩⟩

/-! ## The send loop -/

theorem connectPhase_next (env : SendEnv) (inp : SendInput) (msgType msgType1 : Direction)
    (s s1 : MCUser) (conn : MIMCConnection) (pkt1 : Option MIMCV6Packet)
    (hconn : s.conn = some conn)
    (h : connectPhase env inp msgType s = .next s1 msgType1 pkt1) :
    msgType1 = msgType ∧ s1.status = s.status ∧ s1.messageToSend = s.messageToSend ∧
      ((conn.status ≠ .NOT_CONNECTED ∧ s1 = s ∧ pkt1 = none) ∨
        (conn.status = .NOT_CONNECTED ∧
          s1 = { s with conn := some conn.Sock_Connected, lastCreateConnTimestamp := 0 } ∧
          pkt1 = env.BuildConnectionPacket s1)) := by
  unfold connectPhase at h
  rw [hconn] at h
  simp only at h
  split at h
  · rename_i hnc
    split at h
    · exact Phase.noConfusion h
    · split at h
      · exact Phase.noConfusion h
      · injection h with hs hm hp
        subst hs hm hp
        exact ⟨rfl, rfl, rfl, Or.inr ⟨hnc, rfl, rfl⟩⟩
  · rename_i hnc
    injection h with hs hm hp
    subst hs hm hp
    exact ⟨rfl, rfl, rfl, Or.inl ⟨hnc, rfl, rfl⟩⟩

theorem handshakePhase_next (env : SendEnv) (inp : SendInput) (msgType msgType2 : Direction)
    (s s2 : MCUser) (conn : MIMCConnection) (pkt pkt2 : Option MIMCV6Packet)
    (hconn : s.conn = some conn)
    (h : handshakePhase env inp msgType s pkt = .next s2 msgType2 pkt2) :
    msgType2 = msgType ∧ s2.status = s.status ∧ s2.messageToSend = s.messageToSend ∧
      ((conn.status ≠ .HANDSHAKE_CONNECTED ∧ s2 = s ∧ pkt2 = pkt) ∨
        (conn.status = .HANDSHAKE_CONNECTED ∧ s.status = .Offline ∧
          pkt2 = env.BuildBindPacket s) ∨
        (conn.status = .HANDSHAKE_CONNECTED ∧ s.status ≠ .Offline ∧
          s2 = { s with lastLoginTimestamp := inp.tLogin } ∧ pkt2 = pkt)) := by
  unfold handshakePhase at h
  rw [hconn] at h
  simp only at h
  split at h
  · rename_i hhc
    split at h
    · exact Phase.noConfusion h
    · rename_i hnot
      split at h
      · rename_i hoff
        split at h
        · exact Phase.noConfusion h
        · rename_i bind hbind
          injection h with hs hm hp
          subst hs hm hp
          exact ⟨rfl, rfl, rfl, Or.inr (Or.inl ⟨hhc, hoff.1, hbind.symm⟩)⟩
      · rename_i hnot2
        injection h with hs hm hp
        subst hs hm hp
        refine ⟨rfl, rfl, rfl, Or.inr (Or.inr ⟨hhc, ?_, by rw [hconn], rfl⟩)⟩
        intro hoff
        by_cases hle : sub64 inp.tHandshake s.lastLoginTimestamp ≤ env.LOGIN_TIMEOUT
        · exact hnot ⟨hoff, hle⟩
        · exact hnot2 ⟨hoff, lt_of_not_ge hle⟩
  · rename_i hhc
    injection h with hs hm hp
    subst hs hm hp
    exact ⟨rfl, rfl, rfl, Or.inl ⟨hhc, rfl, rfl⟩⟩

theorem onlinePhase_next (env : SendEnv) (inp : SendInput) (msgType msgType3 : Direction)
    (s s3 : MCUser) (pkt pkt3 : Option MIMCV6Packet)
    (h : onlinePhase env inp msgType s pkt = .next s3 msgType3 pkt3) :
    s3.conn = s.conn ∧
      ((s.status = .Online ∧
          ((∃ m rest, s.messageToSend = some (m :: rest) ∧ pkt3 = some m.packet) ∨
            (s.messageToSend = some [] ∧ pkt3 = env.BuildPingPacket s))) ∨
        (s.status ≠ .Online ∧ pkt3 = pkt)) := by
  unfold onlinePhase at h
  split at h
  · rename_i hon
    cases hq : s.messageToSend with
    | none =>
      simp only [hq] at h
      exact Phase.noConfusion h
    | some queue =>
      cases queue with
      | nil =>
        simp only [hq, ConQueue.Pop] at h
        split at h
        · injection h with hs hm hp
          subst hs hm hp
          exact ⟨rfl, Or.inl ⟨hon, Or.inr ⟨rfl, rfl⟩⟩⟩
        · exact Phase.noConfusion h
      | cons m rest =>
        simp only [hq, ConQueue.Pop] at h
        injection h with hs hm hp
        subst hs hm hp
        exact ⟨rfl, Or.inl ⟨hon, Or.inl ⟨m, rest, rfl, rfl⟩⟩⟩
  · rename_i hon
    split at h
    · split at h
      · exact Phase.noConfusion h
      · rename_i b s1 hl
        injection h with hs hm hp
        subst hs hm hp
        exact ⟨(Login_status env.toEnv inp.fetched s s1 b hl).2.1, Or.inr ⟨hon, rfl⟩⟩
    · injection h with hs hm hp
      subst hs hm hp
      exact ⟨rfl, Or.inr ⟨hon, rfl⟩⟩

theorem writePhase_written (env : SendEnv) (inp : SendInput) (msgType : Direction)
    (s s1 : MCUser) (pkt : Option MIMCV6Packet) (r : SendStep)
    (h : writePhase env inp msgType s pkt = .ret r s1) : r.written = pkt := by
  unfold writePhase at h
  split at h
  · injection h with hr _
    subst hr
    rfl
  · split at h
    · exact Run.noConfusion h
    · simp only at h
      split at h <;>
      · injection h with hr _
        subst hr
        rfl

theorem offline_of_not_online (s : MCUser) (h : s.status ≠ .Online) : s.status = .Offline := by
  cases hst : s.status with
  | Online => exact absurd hst h
  | Offline => rfl

/-- C11, as the code has it: in one iteration of the send loop, taken as one
sequential step, a frame handed to the socket is either a queued message or a
ping, and then the session is Online (whatever the connection status), or the
CONN frame built after a connect from NotConnected, or the BIND frame, and
then the connection is HandshakeConnected. So an iteration that starts with
the session Offline and the connection NotConnected or SockConnected writes no
queued message, ping or bind frame. -/
theorem sendIteration_written_frame (env : SendEnv) (inp : SendInput) (msgType : Direction)
    (s s1 : MCUser) (conn : MIMCConnection) (r : SendStep) (frame : MIMCV6Packet)
    (hconn : s.conn = some conn)
    (hrun : sendIteration env inp msgType s = .ret r s1)
    (hw : r.written = some frame) :
    (s.status = .Online ∧
      ((∃ m rest, s.messageToSend = some (m :: rest) ∧ frame = m.packet) ∨
        (s.messageToSend = some [] ∧ ∃ s2, env.BuildPingPacket s2 = some frame))) ∨
    (s.status = .Offline ∧ conn.status = .NOT_CONNECTED ∧
      env.BuildConnectionPacket
        { s with conn := some conn.Sock_Connected, lastCreateConnTimestamp := 0 }
        = some frame) ∨
    (s.status = .Offline ∧ conn.status = .HANDSHAKE_CONNECTED ∧
      env.BuildBindPacket s = some frame) := by
  have hnone : ∀ (mt : Direction) (u : MCUser),
      Run.ret ({ msgType := mt, written := none } : SendStep) u = .ret r s1 → False := by
    intro mt u h
    injection h with hr _
    subst hr
    exact Option.noConfusion hw
  unfold sendIteration at hrun
  cases hc : connectPhase env inp msgType s with
  | panic =>
    rw [hc] at hrun
    exact Run.noConfusion hrun
  | again sa ma =>
    rw [hc] at hrun
    exact (hnone _ _ hrun).elim
  | next sa ma pa =>
    rw [hc] at hrun
    simp only at hrun
    obtain ⟨_, hsta, hqa, hca⟩ := connectPhase_next env inp msgType ma s sa conn pa hconn hc
    cases hh : handshakePhase env inp ma sa pa with
    | panic =>
      rw [hh] at hrun
      exact Run.noConfusion hrun
    | again sb mb =>
      rw [hh] at hrun
      exact (hnone _ _ hrun).elim
    | next sb mb pb =>
      rw [hh] at hrun
      simp only at hrun
      cases ho : onlinePhase env inp mb sb pb with
      | panic =>
        rw [ho] at hrun
        exact Run.noConfusion hrun
      | again sc mc =>
        rw [ho] at hrun
        exact (hnone _ _ hrun).elim
      | next sc mc pc =>
        rw [ho] at hrun
        simp only at hrun
        have hpc : pc = some frame := by
          rw [← writePhase_written env inp mc sc s1 pc r hrun]
          exact hw
        obtain ⟨_, hon⟩ := onlinePhase_next env inp mb mc sb sc pb pc ho
        -- the connection the handshake block sees
        have hsb : sb.status = s.status ∧ sb.messageToSend = s.messageToSend ∧
            ((conn.status = .NOT_CONNECTED ∧ pb = env.BuildConnectionPacket
                { s with conn := some conn.Sock_Connected, lastCreateConnTimestamp := 0 }) ∨
              (conn.status = .HANDSHAKE_CONNECTED ∧ s.status = .Offline ∧
                pb = env.BuildBindPacket s) ∨
              pb = none) := by
          rcases hca with ⟨hnc, hsa, hpa⟩ | ⟨hnc, hsa, hpa⟩
          · subst hsa
            obtain ⟨_, hstb, hqb, hcb⟩ :=
              handshakePhase_next env inp ma mb sa sb conn pa pb hconn hh
            refine ⟨hstb, hqb, ?_⟩
            rcases hcb with ⟨_, _, hpb⟩ | ⟨hhc, hoff, hpb⟩ | ⟨_, _, _, hpb⟩
            · exact Or.inr (Or.inr (hpb.trans hpa))
            · exact Or.inr (Or.inl ⟨hhc, hoff, hpb⟩)
            · exact Or.inr (Or.inr (hpb.trans hpa))
          · have hconna : sa.conn = some conn.Sock_Connected := by rw [hsa]
            obtain ⟨_, hstb, hqb, hcb⟩ :=
              handshakePhase_next env inp ma mb sa sb conn.Sock_Connected pa pb hconna hh
            refine ⟨hstb.trans hsta, hqb.trans hqa, ?_⟩
            rcases hcb with ⟨_, _, hpb⟩ | ⟨hhc, _, _⟩ | ⟨hhc, _, _, _⟩
            · refine Or.inl ⟨hnc, ?_⟩
              rw [hpb, hpa, hsa]
            · exact ConnStatus.noConfusion hhc
            · exact ConnStatus.noConfusion hhc
        obtain ⟨hstb, hqb, hpb⟩ := hsb
        rcases hon with ⟨honl, hq⟩ | ⟨hoff, hpcb⟩
        · refine Or.inl ⟨hstb ▸ honl, ?_⟩
          rcases hq with ⟨m, rest, hm, hp⟩ | ⟨hm, hp⟩
          · refine Or.inl ⟨m, rest, hqb ▸ hm, ?_⟩
            rw [hpc] at hp
            exact Option.some.inj hp
          · refine Or.inr ⟨hqb ▸ hm, sb, ?_⟩
            rw [← hp, hpc]
        · have hoffs : s.status = .Offline := offline_of_not_online s (hstb ▸ hoff)
          rw [hpc] at hpcb
          rcases hpb with ⟨hnc, hp⟩ | ⟨hhc, _, hp⟩ | hp
          · exact Or.inr (Or.inl ⟨hoffs, hnc, by rw [← hp, ← hpcb]⟩)
          · exact Or.inr (Or.inr ⟨hoffs, hhc, by rw [← hp, ← hpcb]⟩)
          · rw [hp] at hpcb
            exact Option.noConfusion hpcb

/-- C11 at two concrete iterations, neither of them a CONN frame. The session
that is Offline on a HandshakeConnected connection and holds a token writes the
BIND frame: the third case of the theorem. The session that is Online on a
HandshakeConnected connection with a message for `bob` in the queue writes that
message: the first case. -/
theorem sendIteration_written_frame_witness :
    ((demoUserBinding.status = .Online ∧
        ((∃ m rest, demoUserBinding.messageToSend = some (m :: rest) ∧
            frameOf .CMD_BIND [81] = m.packet) ∨
          (demoUserBinding.messageToSend = some [] ∧
            ∃ s2, demoSendEnv.BuildPingPacket s2 = some (frameOf .CMD_BIND [81])))) ∨
      (demoUserBinding.status = .Offline ∧
        ({ NewConn with status := .HANDSHAKE_CONNECTED, challenge := "X",
                        rc4Key := "Xk3y" } : MIMCConnection).status = .NOT_CONNECTED ∧
        demoSendEnv.BuildConnectionPacket
          { demoUserBinding with
            conn := some ({ NewConn with status := .HANDSHAKE_CONNECTED, challenge := "X",
                                         rc4Key := "Xk3y" } : MIMCConnection).Sock_Connected,
            lastCreateConnTimestamp := 0 }
          = some (frameOf .CMD_BIND [81])) ∨
      (demoUserBinding.status = .Offline ∧
        ({ NewConn with status := .HANDSHAKE_CONNECTED, challenge := "X",
                        rc4Key := "Xk3y" } : MIMCConnection).status = .HANDSHAKE_CONNECTED ∧
        demoSendEnv.BuildBindPacket demoUserBinding = some (frameOf .CMD_BIND [81]))) ∧
    demoUserBinding.status = .Offline ∧
    demoSendEnv.BuildBindPacket demoUserBinding = some (frameOf .CMD_BIND [81]) ∧
    sendIteration demoSendEnv (SendInput.atTime 1000000 true none true)
        .MIMC_C2S_DOUBLE_DIRECTION demoUserBinding
      = .ret { msgType := .MIMC_C2S_DOUBLE_DIRECTION,
               written := some (frameOf .CMD_BIND [81]) }
          { demoUserBinding with
            conn := some { NewConn with status := .HANDSHAKE_CONNECTED, challenge := "X",
                                        rc4Key := "Xk3y", nextResetSockTs := 1010000 },
            lastLoginTimestamp := 1000000, lastPingTimestamp := 1000000 } ∧
    ((demoUserQueued.status = .Online ∧
        ((∃ m rest, demoUserQueued.messageToSend = some (m :: rest) ∧
            (demoEnv.BuildP2PMessagePacket demoUser "bob" [1, 2]).1 = m.packet) ∨
          (demoUserQueued.messageToSend = some [] ∧
            ∃ s2, demoSendEnv.BuildPingPacket s2
              = some (demoEnv.BuildP2PMessagePacket demoUser "bob" [1, 2]).1))) ∨
      (demoUserQueued.status = .Offline ∧
        ({ NewConn with status := .HANDSHAKE_CONNECTED, challenge := "X",
                        rc4Key := "Xk3y" } : MIMCConnection).status = .NOT_CONNECTED ∧
        demoSendEnv.BuildConnectionPacket
          { demoUserQueued with
            conn := some ({ NewConn with status := .HANDSHAKE_CONNECTED, challenge := "X",
                                         rc4Key := "Xk3y" } : MIMCConnection).Sock_Connected,
            lastCreateConnTimestamp := 0 }
          = some (demoEnv.BuildP2PMessagePacket demoUser "bob" [1, 2]).1) ∨
      (demoUserQueued.status = .Offline ∧
        ({ NewConn with status := .HANDSHAKE_CONNECTED, challenge := "X",
                        rc4Key := "Xk3y" } : MIMCConnection).status = .HANDSHAKE_CONNECTED ∧
        demoSendEnv.BuildBindPacket demoUserQueued
          = some (demoEnv.BuildP2PMessagePacket demoUser "bob" [1, 2]).1)) ∧
    demoUserQueued.status = .Online ∧
    sendIteration demoSendEnv (SendInput.atTime 1000000 true none true)
        .MIMC_C2S_DOUBLE_DIRECTION demoUserQueued
      = .ret { msgType := .MIMC_C2S_DOUBLE_DIRECTION,
               written := some (demoEnv.BuildP2PMessagePacket demoUser "bob" [1, 2]).1 }
          { demoUserQueued with
            conn := some { NewConn with status := .HANDSHAKE_CONNECTED, challenge := "X",
                                        rc4Key := "Xk3y", nextResetSockTs := 1010000 },
            messageToSend := some [],
            lastLoginTimestamp := 1000000, lastPingTimestamp := 1000000 } :=
  ⟨sendIteration_written_frame demoSendEnv (SendInput.atTime 1000000 true none true)
      .MIMC_C2S_DOUBLE_DIRECTION demoUserBinding
      { demoUserBinding with
        conn := some { NewConn with status := .HANDSHAKE_CONNECTED, challenge := "X",
                                    rc4Key := "Xk3y", nextResetSockTs := 1010000 },
        lastLoginTimestamp := 1000000, lastPingTimestamp := 1000000 }
      { NewConn with status := .HANDSHAKE_CONNECTED, challenge := "X", rc4Key := "Xk3y" }
      { msgType := .MIMC_C2S_DOUBLE_DIRECTION, written := some (frameOf .CMD_BIND [81]) }
      (frameOf .CMD_BIND [81]) rfl rfl rfl,
    rfl, rfl, rfl,
    sendIteration_written_frame demoSendEnv (SendInput.atTime 1000000 true none true)
      .MIMC_C2S_DOUBLE_DIRECTION demoUserQueued
      { demoUserQueued with
        conn := some { NewConn with status := .HANDSHAKE_CONNECTED, challenge := "X",
                                    rc4Key := "Xk3y", nextResetSockTs := 1010000 },
        messageToSend := some [],
        lastLoginTimestamp := 1000000, lastPingTimestamp := 1000000 }
      { NewConn with status := .HANDSHAKE_CONNECTED, challenge := "X", rc4Key := "Xk3y" }
      { msgType := .MIMC_C2S_DOUBLE_DIRECTION,
        written := some (demoEnv.BuildP2PMessagePacket demoUser "bob" [1, 2]).1 }
      (demoEnv.BuildP2PMessagePacket demoUser "bob" [1, 2]).1 rfl rfl rfl,
    rfl, rfl⟩

/-- C11 as stated fails: a session that is Online while its connection is only
SockConnected pops the queued message for `bob` and hands it to the socket,
the connection still SockConnected afterwards; when the connection is
NotConnected the iteration connects and then writes the queued message in place
of the CONN frame it had built; and with an empty queue and no activity for
more than the ping interval, the session that is Online on a SockConnected
connection builds a ping and hands it to the socket. -/
theorem sendIteration_writes_message_before_handshake :
    (∃ s1, sendIteration demoSendEnv (SendInput.atTime 1000000 true none true)
        .MIMC_C2S_DOUBLE_DIRECTION demoUserOnlineSock
        = .ret { msgType := .MIMC_C2S_DOUBLE_DIRECTION,
                 written := some (demoEnv.BuildP2PMessagePacket demoUser "bob" [1, 2]).1 } s1 ∧
      demoUserOnlineSock.conn.map (fun c => c.status) = some .SOCK_CONNECTED ∧
      s1.conn.map (fun c => c.status) = some .SOCK_CONNECTED ∧
      s1.messageToSend = some []) ∧
    (∃ s1, sendIteration demoSendEnv (SendInput.atTime 1000000 true none true)
        .MIMC_C2S_DOUBLE_DIRECTION { demoUserOnlineSock with conn := some NewConn }
        = .ret { msgType := .MIMC_C2S_DOUBLE_DIRECTION,
                 written := some (demoEnv.BuildP2PMessagePacket demoUser "bob" [1, 2]).1 } s1 ∧
      s1.conn.map (fun c => c.status) = some .SOCK_CONNECTED ∧
      s1.messageToSend = some []) ∧
    (∃ s1 ping, demoSendEnv.BuildPingPacket { demoUserOnlineSock with messageToSend := some [] }
        = some ping ∧
      sendIteration demoSendEnv (SendInput.atTime 1000000 true none true)
        .MIMC_C2S_DOUBLE_DIRECTION { demoUserOnlineSock with messageToSend := some [] }
        = .ret { msgType := .MIMC_C2S_DOUBLE_DIRECTION, written := some ping } s1 ∧
      s1.conn.map (fun c => c.status) = some .SOCK_CONNECTED) :=
  ⟨⟨_, rfl, rfl, rfl, rfl⟩, ⟨_, rfl, rfl, rfl⟩, ⟨_, _, rfl, rfl, rfl⟩⟩

theorem sendIteration_online_handshaked_idle (env : SendEnv) (inp : SendInput)
    (msgType : Direction) (s : MCUser) (conn : MIMCConnection)
    (hconn : s.conn = some conn) (hhc : conn.status = .HANDSHAKE_CONNECTED)
    (hon : s.status = .Online) (hq : s.messageToSend = some []) :
    sendIteration env inp msgType s =
      if sub64 inp.tPing inp.tLogin > env.PING_TIMEVAL_MS then
        writePhase env inp msgType { s with lastLoginTimestamp := inp.tLogin }
          (env.BuildPingPacket { s with lastLoginTimestamp := inp.tLogin })
      else
        .ret { msgType := msgType, written := none }
          { s with lastLoginTimestamp := inp.tLogin } := by
  have hnc : ¬ conn.status = .NOT_CONNECTED := by
    rw [hhc]
    exact fun h => ConnStatus.noConfusion h
  have hoff : ¬ s.status = .Offline := by
    rw [hon]
    exact fun h => UserStatus.noConfusion h
  have h1 : connectPhase env inp msgType s = .next s msgType none := by
    simp only [connectPhase, hconn, hnc, if_false]
  have h2 : handshakePhase env inp msgType s none
      = .next { s with lastLoginTimestamp := inp.tLogin } msgType none := by
    simp only [handshakePhase, hconn, hhc, hoff, false_and, if_false, if_true]
  have h3 : onlinePhase env inp msgType { s with lastLoginTimestamp := inp.tLogin } none =
      if sub64 inp.tPing inp.tLogin > env.PING_TIMEVAL_MS then
        .next { s with lastLoginTimestamp := inp.tLogin } msgType
          (env.BuildPingPacket { s with lastLoginTimestamp := inp.tLogin })
      else .again { s with lastLoginTimestamp := inp.tLogin } msgType := by
    simp only [onlinePhase, hon, hq, ConQueue.Pop, if_true]
  unfold sendIteration
  rw [h1]
  simp only
  rw [h2]
  simp only
  rw [h3]
  by_cases hp : sub64 inp.tPing inp.tLogin > env.PING_TIMEVAL_MS
  · simp only [hp, if_true]
  · simp only [hp, if_false]

theorem sendIteration_handshaked_idle_no_ping (env : SendEnv) (inp : SendInput)
    (msgType : Direction) (s : MCUser) (conn : MIMCConnection)
    (hconn : s.conn = some conn) (hhc : conn.status = .HANDSHAKE_CONNECTED)
    (hon : s.status = .Online) (hq : s.messageToSend = some [])
    (hclock : sub64 inp.tPing inp.tLogin ≤ env.PING_TIMEVAL_MS) :
    sendIteration env inp msgType s =
      .ret { msgType := msgType, written := none }
        { s with lastLoginTimestamp := inp.tLogin } := by
  rw [sendIteration_online_handshaked_idle env inp msgType s conn hconn hhc hon hq]
  simp only [gt_iff_lt, not_lt.mpr hclock, if_false]

/-- C12: an iteration that starts HandshakeConnected, Online, with an empty
queue and `lastLoginTimestamp` 0 at clock value 1000000, so idle for far more
than the ping interval of 15000, first stores the clock value in
`lastLoginTimestamp` (line 247) and then finds the idle time 0: it builds no
PING frame and writes nothing; so does the next iteration, 20 s later. -/
theorem sendIteration_idle_sends_no_ping :
    1000000 - demoUserIdle.lastLoginTimestamp > demoSendEnv.PING_TIMEVAL_MS ∧
      sendIteration demoSendEnv (SendInput.atTime 1000000 true none true)
          .MIMC_C2S_DOUBLE_DIRECTION demoUserIdle
        = .ret { msgType := .MIMC_C2S_DOUBLE_DIRECTION, written := none }
            { demoUserIdle with lastLoginTimestamp := 1000000 } ∧
      sendIteration demoSendEnv (SendInput.atTime 1020000 true none true)
          .MIMC_C2S_DOUBLE_DIRECTION { demoUserIdle with lastLoginTimestamp := 1000000 }
        = .ret { msgType := .MIMC_C2S_DOUBLE_DIRECTION, written := none }
            { demoUserIdle with lastLoginTimestamp := 1020000 } :=
  ⟨by decide, rfl, rfl⟩

end MIMC
